import Mathlib

/-!
# Verification of the SerendivWatcherModelx analytics engine

Shallow embedding of the aggregation/analytics engine:

* `src/src/analytics/indicator_builder.py` (national/sector indicators,
  risk/opportunity detector, noise filter, LLM keyword extraction),
* `src/src/analytics/advanced_analytics.py` (temporal trend, anomaly
  detection, sector clustering, velocity analysis),
* `src/src/processing/generate_correlations.py` (sector pair correlations).

Modelling conventions:

* Python floats are modelled as exact rationals (`ℚ`); `round(x, k)` as
  rounding to the nearest multiple of `10⁻ᵏ` (ties away from the lower value,
  matching Mathlib's `round`; the Python banker tie rule differs only at exact
  half-multiples of `10⁻ᵏ`, which none of the developments below exercise).
* A Python dict key that may be absent is an `Option` field.
* Timestamps: the engine only ever uses a timestamp through
  `datetime.fromisoformat(ts).date()`, so a timestamp is modelled as the
  calendar day it parses to (`ℤ`, ordered as dates; ISO date strings sort
  lexicographically in date order, so sorting of date keys is preserved).
  `none` models an absent key, `some none` a present but unparsable/empty
  value (which Python skips without falling back to the other field).
* `np.mean` of a list is its sum divided by its length; `np.std` is the
  population standard deviation.  Comparisons involving the standard
  deviation are expressed by comparing squares, which is exact; the rounded
  z-score that the artifact carries is computed by integer square-root
  rounding (`sqrtRound`), again exact for the real-valued computation.
* The external k-means step (`StandardScaler` + `KMeans(random_state=42)`,
  a fixed-seed, deterministic sklearn pipeline) and the external LLM call
  (`requests.post` to Ollama) are not code of this repository; they enter the
  embedding as explicit function arguments (`cl`, `oracle`).
-/

namespace Serendiv

/-- An enriched article record as stored in the TinyDB article store.
Fields the analytics read; a dict key that may be absent is an `Option`. -/
structure Article where
  sentiment_score : Option ℚ := none
  sentiment_label : Option String := none
  sectors : List String := []
  entities_org : List String := []
  entities_gpe : List String := []
  entities_loc : List String := []
  keywords : List String := []
  word_count : ℚ := 0
  title : String := ""
  text : String := ""
  url : String := ""
  source : String := ""
  scraped_at : Option (Option ℤ) := none
  updated_at : Option (Option ℤ) := none
deriving Repr, DecidableEq, Inhabited

/-- `article.get("sentiment_score", 0)`. -/
def getSent (a : Article) : ℚ := a.sentiment_score.getD 0

/-- Python `round(x, k)` on exact rationals. -/
def roundTo (k : ℕ) (q : ℚ) : ℚ := (round (q * 10 ^ k) : ℚ) / 10 ^ k

/-- `round(x, 3)`. -/
def round3 : ℚ → ℚ := roundTo 3

/-- `np.mean` / `sum(l)/len(l)` on a list of scores. -/
def listMean (l : List ℚ) : ℚ := l.sum / l.length

/-- Nearest natural number to `√q` (ties upward), for `0 ≤ q`.
Used to express Python's `round` of a square root exactly. -/
def sqrtRound (q : ℚ) : ℕ :=
  if q < ((Nat.sqrt ⌊q⌋₊ : ℚ) + 1 / 2) ^ 2 then Nat.sqrt ⌊q⌋₊
  else Nat.sqrt ⌊q⌋₊ + 1

/-- First-occurrence deduplication: the key order of a Python dict built by
insertion while scanning a list. -/
def dedupF [DecidableEq α] : List α → List α
  | [] => []
  | x :: xs => x :: dedupF (xs.filter (fun y => y ≠ x))
termination_by l => l.length
decreasing_by
  exact Nat.lt_succ_of_le (List.length_filter_le _ _)

/-- Occurrence counts of a scan list, keys in first-occurrence order: a
Python `Counter`/`defaultdict(int)` built by iterating the list. -/
def tally [DecidableEq α] (l : List α) : List (α × ℕ) :=
  (dedupF l).map (fun x => (x, l.count x))

/-- Insert `x` into a sorted list, before the first `y` with `le x y`:
the insertion step of a stable insertion sort. -/
def insertStable (le : α → α → Bool) (x : α) : List α → List α
  | [] => [x]
  | y :: ys => if le x y then x :: y :: ys else y :: insertStable le x ys

/-- Stable sort by `le` (equal elements keep their input order): the
semantics of Python's `list.sort`/`sorted` with the corresponding key. -/
def sortStable (le : α → α → Bool) : List α → List α
  | [] => []
  | x :: xs => insertStable le x (sortStable le xs)

/-- `sorted(pairs, key=lambda x: x[1], reverse=True)`: stable descending
sort by count. -/
def sortDescBySnd (l : List (α × ℕ)) : List (α × ℕ) :=
  sortStable (fun x y => decide (y.2 ≤ x.2)) l

/-- All ordered pairs `(xs[i], xs[j])` with `i < j`, in the order
`itertools.combinations(xs, 2)` produces them. -/
def pairsOf : List α → List (α × α)
  | [] => []
  | x :: xs => xs.map (fun y => (x, y)) ++ pairsOf xs

/-- Substring test on char lists: `n` occurs inside `s`. -/
def subAt (n : List Char) : List Char → Bool
  | [] => n.isEmpty
  | c :: cs => n.isPrefixOf (c :: cs) || subAt n cs

/-- Python `needle in hay` on strings. -/
def containsSub (needle hay : String) : Bool := subAt needle.data hay.data

/-- Python `s.lower()` (character-wise). -/
def strToLower (s : String) : String := ⟨s.data.map Char.toLower⟩

/-- Python `s.strip()`: drop leading and trailing whitespace. -/
def strTrim (s : String) : String :=
  ⟨((s.data.dropWhile Char.isWhitespace).reverse.dropWhile
      Char.isWhitespace).reverse⟩

/-- Python `s[:n]` (character slice). -/
def strTake (s : String) (n : ℕ) : String := ⟨s.data.take n⟩

/-- Split a char list at a predicate (empty segments kept). -/
def splitChars (p : Char → Bool) : List Char → List (List Char)
  | [] => [[]]
  | c :: cs =>
      match splitChars p cs with
      | [] => if p c then [[], [c]] else [[c]]
      | w :: ws => if p c then [] :: w :: ws else (c :: w) :: ws

/-- Split a char list at every occurrence of a (nonempty) separator. -/
def splitOnChars (sep : List Char) : List Char → List (List Char)
  | [] => [[]]
  | c :: cs =>
      if sep.isPrefixOf (c :: cs) && !sep.isEmpty then
        [] :: splitOnChars sep (cs.drop (sep.length - 1))
      else
        match splitOnChars sep cs with
        | [] => [[c]]
        | w :: ws => (c :: w) :: ws
termination_by l => l.length
decreasing_by
  · simp only [List.length_drop, List.length_cons]
    omega
  · simp only [List.length_cons]
    omega

/-- Python `s.split(sep)` for a nonempty separator. -/
def strSplitOn (sep s : String) : List String :=
  (splitOnChars sep.data s.data).map (fun w => ⟨w⟩)

/-- Replace every (non-overlapping) occurrence of `pat` in a char list. -/
def replaceChars (pat rep : List Char) : List Char → List Char
  | [] => []
  | c :: cs =>
      if pat.isPrefixOf (c :: cs) && !pat.isEmpty then
        rep ++ replaceChars pat rep (cs.drop (pat.length - 1))
      else
        c :: replaceChars pat rep cs
termination_by l => l.length
decreasing_by
  · simp only [List.length_drop, List.length_cons]
    omega
  · simp only [List.length_cons]
    omega

/-- Python `s.replace(pat, rep)` for a nonempty pattern. -/
def strReplace (s pat rep : String) : String :=
  ⟨replaceChars pat.data rep.data s.data⟩

/-- Python `sep.join(parts)`. -/
def strIntercalate (sep : String) (parts : List String) : String :=
  ⟨List.intercalate sep.data (parts.map String.data)⟩

/-- Python `s.split()`: split on whitespace runs, dropping empties. -/
def splitWords (s : String) : List String :=
  ((splitChars Char.isWhitespace s.data).map (fun w => (⟨w⟩ : String))).filter
    (fun w => w ≠ "")

/-- `" ".join(text.split())`: collapse whitespace. -/
def normWS (s : String) : String := strIntercalate " " (splitWords s)

/-! ## Noise filter (module-level blacklists of `indicator_builder.py`) -/

def ENGLISH_STOPWORDS : List String :=
  ["that", "this", "these", "those", "they", "them", "their", "there",
   "what", "which", "who", "whom", "whose", "where", "when", "why", "how",
   "the", "a", "an", "and", "or", "but", "if", "then", "than",
   "such", "some", "any", "all", "both", "each", "few", "more", "most",
   "other", "another", "same", "so", "just", "very", "can", "will"]

def UI_ARTIFACTS : List String :=
  ["mobile apps", "222 reply", "view results", "this browser", "my name",
   "save my name", "very good article", "internal inquiry rainfall",
   "digital screen", "our journey", "these initiatives", "aftermath",
   "excellence", "operational efficiency", "investor confidence",
   "accessibility", "partnership", "nations", "institutions"]

def NOISY_TOPICS : List String :=
  ["marketing manager sales", "this website", "the morning",
   "the sunday times", "sport", "copyright", "ft.lk copyright", "ft.lk",
   "fire", "email", "friend", "addition", "the tamil diaspora",
   "a few sections", "no impact", "the economy", "your old ride"]

def BAD_KEYWORD_FRAGMENTS : List String :=
  ["copyright", "ft.lk", "ft.", ".lk", "your old", "the next",
   "this website", "the morning", "sunday times", "daily mirror",
   "email", "friend", "click", "read more", "subscribe"]

def GENERIC_BUZZWORDS : List String :=
  ["growth", "technology", "government", "officials", "efforts",
   "logistics", "innovation", "digital", "development",
   "time", "year", "month", "week", "day", "today", "yesterday"]

def MIN_TOPIC_LENGTH : ℕ := 5

def BAD_ORG_NAMES : List String :=
  ["INR 2", "YoY", "BBC", "DHS", "U.S. Professor", "Colombos",
   "Unity Plazas", "Colombo", "Digital", "Group", "Groups", "Bank",
   "Committee", "Members", "EFF", "State", "COVID-19", "Sri Lanka"]

def BANNED_ORGANIZATIONS : List String :=
  ["International Aid and Government Alerts Security",
   "the Board of Directors", "the Management of Onally Holdings PLC",
   "Capital Goods", "the Central Bank of Sri Lanka", "the World Bank",
   "the Ceylon Chamber of Commerce", "Charming and Co.",
   "the Onally Holdings PLC"]

/-- After one or more whitespace characters, does `w2` start?  Implements the
tail of a regex `w1\s+w2` match (all two-word garbage patterns start `w2`
with a letter, so the whitespace run consumed is the maximal one). -/
def afterWsGap (w2 : List Char) (s : List Char) : Bool :=
  match s with
  | [] => false
  | c :: cs => c.isWhitespace && w2.isPrefixOf (cs.dropWhile Char.isWhitespace)

/-- Unanchored search for `w1`, one-or-more whitespace, `w2`. -/
def gapSearch (w1 w2 : List Char) : List Char → Bool
  | [] => false
  | c :: cs =>
      (w1.isPrefixOf (c :: cs) && afterWsGap w2 ((c :: cs).drop w1.length))
        || gapSearch w1 w2 cs

/-- The anchored garbage pattern: digits, whitespace, `reply`, end. -/
def digitsReplyPat (t : String) : Bool :=
  let p := t.data.span Char.isDigit
  (!p.1.isEmpty) &&
    match p.2 with
    | [] => false
    | c :: cs => c.isWhitespace && (cs.dropWhile Char.isWhitespace == "reply".data)

/-- `GARBAGE_PATTERNS`: does any of the nine regexes match `t`
(`re.search`, `t` already lower-cased)? -/
def garbageMatch (t : String) : Bool :=
  digitsReplyPat t
    || gapSearch "view".data "result".data t.data
    || gapSearch "this".data "browser".data t.data
    || gapSearch "my".data "name".data t.data
    || gapSearch "save".data "my".data t.data
    || gapSearch "very".data "good".data t.data
    || gapSearch "mobile".data "app".data t.data
    || gapSearch "digital".data "screen".data t.data
    || gapSearch "internal".data "inquiry".data t.data

/-- `IndicatorBuilder._is_publisher`. -/
def is_publisher (org : String) : Bool :=
  if org = "" then false
  else
    let o := strTrim (strToLower org)
    ["times", "mirror", "news", "newspapers", "newspaper",
     "sunday", "daily", "lmd", "ft.lk", "ft.", "dailymirror",
     "sundaytimes", "the morning", "morningweb", "morning lk",
     "wnl", "wijeya", "publishers", "publishing",
     "macroentertainment", "print ads", "advertising", ".lk",
     "media", "press", "gazette", "observer", "herald",
     "journalist", "editorial", "taj samudra"].any (fun ind => containsSub ind o)

/-- `IndicatorBuilder._clean_topic`: the noise filter for keywords. -/
def clean_topic (text : String) : Option String :=
  if text = "" then none
  else
    let t := strTrim (strToLower (normWS text))
    if t.length < MIN_TOPIC_LENGTH then none
    else if t ∈ NOISY_TOPICS ∨ t ∈ ENGLISH_STOPWORDS ∨ t ∈ GENERIC_BUZZWORDS
        ∨ t ∈ UI_ARTIFACTS then none
    else if BAD_KEYWORD_FRAGMENTS.any (fun fr => containsSub fr t) then none
    else if garbageMatch t then none
    else
      let nospace := strReplace t " " ""
      if nospace ≠ "" ∧ nospace.data.all Char.isDigit then none
      else if nospace.data.dedup.length ≤ 2 then none
      else some t

/-- `IndicatorBuilder._clean_organization`: the noise filter for
organization names. -/
def clean_organization (org : String) : Option String :=
  if org = "" ∨ org.length < 2 then none
  else
    let o := strTrim org
    if o ∈ BANNED_ORGANIZATIONS ∨ o ∈ BAD_ORG_NAMES then none
    else if is_publisher o then none
    else if (splitWords o).length = 1 ∧
        strToLower o ∈ ["government", "parliament", "cabinet", "treasury",
                     "group", "groups", "state", "bank"] then none
    else some o

/-! ## National indicators (`build_national_indicators`, `build_top_topics`) -/

/-- `[a.get("sentiment_score", 0) for a in articles if "sentiment_score" in a]`. -/
def presentScores (arts : List Article) : List ℚ :=
  (arts.filter (fun a => a.sentiment_score.isSome)).map getSent

/-- One entry of the national `top_topics` list. -/
structure TopTopic where
  topic : String
  count : ℕ
  top_sectors : List (String × ℕ)
deriving Repr, DecidableEq

/-- Scan list of cleaned keyword occurrences (article order, keyword order). -/
def cleanedKeywordOcc (arts : List Article) : List String :=
  arts.flatMap (fun a => a.keywords.filterMap clean_topic)

/-- For a given cleaned topic, the scan list of sectors credited to it:
per article, each cleaned-keyword occurrence equal to the topic credits all
of the article's sectors once. -/
def topicSectorOcc (arts : List Article) (topic : String) : List String :=
  arts.flatMap (fun a =>
    (List.replicate ((a.keywords.filterMap clean_topic).count topic) a.sectors).flatten)

/-- `IndicatorBuilder.build_top_topics`. -/
def build_top_topics (arts : List Article) (maxTopics : ℕ) : List TopTopic :=
  ((sortDescBySnd (tally (cleanedKeywordOcc arts))).take maxTopics).map
    (fun p =>
      { topic := p.1, count := p.2,
        top_sectors := (sortDescBySnd (tally (topicSectorOcc arts p.1))).take 3 })

/-- The national indicators artifact.  `timestamp` is
`datetime.utcnow().isoformat()`, i.e. the wall clock at build time, passed
in explicitly (`now`). -/
structure NationalIndicators where
  overall_sentiment : ℚ
  sentiment_distribution : List (String × ℕ)
  total_articles : ℕ
  positive_articles : ℕ
  negative_articles : ℕ
  neutral_articles : ℕ
  top_sectors : List (String × ℕ)
  top_organizations : List (String × ℕ)
  top_locations : List (String × ℕ)
  top_topics : List TopTopic
  timestamp : String
deriving Repr, DecidableEq

/-- `IndicatorBuilder.build_national_indicators`. -/
def build_national_indicators (arts : List Article) (now : String) :
    NationalIndicators :=
  let sentiments := presentScores arts
  let avg : ℚ := if sentiments = [] then 0 else listMean sentiments
  let dist := tally (arts.map (fun a => a.sentiment_label.getD "neutral"))
  let orgOcc := arts.flatMap (fun a => a.entities_org.filterMap clean_organization)
  let locOcc := arts.flatMap (fun a => a.entities_gpe ++ a.entities_loc)
  { overall_sentiment := round3 avg
    sentiment_distribution := dist
    total_articles := arts.length
    positive_articles := (dist.lookup "positive").getD 0
    negative_articles := (dist.lookup "negative").getD 0
    neutral_articles := (dist.lookup "neutral").getD 0
    top_sectors := (sortDescBySnd (tally (arts.flatMap Article.sectors))).take 5
    top_organizations := (sortDescBySnd (tally orgOcc)).take 10
    top_locations := (sortDescBySnd (tally locOcc)).take 10
    top_topics := build_top_topics arts 10
    timestamp := now }

/-! ## Risk & opportunity insights (`detect_risks_opportunities`) -/

structure RiskRec where
  title : String
  url : String
  sectors : List String
  sentiment : ℚ
  severity : String
  rtype : String
deriving Repr, DecidableEq

structure OppRec where
  title : String
  url : String
  sectors : List String
  sentiment : ℚ
  impact : String
  rtype : String
deriving Repr, DecidableEq

structure RiskOppReport where
  risks : List RiskRec
  opportunities : List OppRec
  total_risks : ℕ
  total_opportunities : ℕ
  top_risks : List RiskRec
  top_opportunities : List OppRec
deriving Repr, DecidableEq

/-- `sentiment < -0.3`: the article contributes a risk entry. -/
def riskCond (a : Article) : Bool := decide (getSent a < -(3 / 10 : ℚ))

/-- `sentiment > 0.3`: the article contributes an opportunity entry. -/
def oppCond (a : Article) : Bool := decide ((3 / 10 : ℚ) < getSent a)

def mkRisk (a : Article) : RiskRec :=
  { title := a.title, url := a.url, sectors := a.sectors
    sentiment := round3 (getSent a)
    severity := if getSent a < -(1 / 2 : ℚ) then "high" else "medium"
    rtype := "negative_sentiment" }

def mkOpp (a : Article) : OppRec :=
  { title := a.title, url := a.url, sectors := a.sectors
    sentiment := round3 (getSent a)
    impact := if (1 / 2 : ℚ) < getSent a then "high" else "medium"
    rtype := "positive_sentiment" }

/-- The risks list before capping: collected in article order, then stably
sorted ascending by (rounded) sentiment — `risks.sort(key=... ["sentiment"])`. -/
def riskCandidates (arts : List Article) : List RiskRec :=
  sortStable (fun x y => decide (x.sentiment ≤ y.sentiment))
    ((arts.filter riskCond).map mkRisk)

/-- The opportunities list before capping, stably sorted descending. -/
def oppCandidates (arts : List Article) : List OppRec :=
  sortStable (fun x y => decide (y.sentiment ≤ x.sentiment))
    ((arts.filter oppCond).map mkOpp)

/-- `IndicatorBuilder.detect_risks_opportunities`. -/
def detect_risks_opportunities (arts : List Article) : RiskOppReport :=
  let rs := riskCandidates arts
  let os := oppCandidates arts
  { risks := rs.take 10, opportunities := os.take 10
    total_risks := rs.length, total_opportunities := os.length
    top_risks := rs.take 5, top_opportunities := os.take 5 }

/-! ## Sector indicators (`build_sector_indicators` and the LLM helpers)

The Ollama HTTP call is external to the repository; a single run of the
builder is modelled against an explicit response function
`oracle : String → String` mapping a prompt to the raw response text
(`""` models the exception path of `_call_ollama`). -/

/-- `_call_ollama`: the raw response, stripped. -/
def callOllama (oracle : String → String) (prompt : String) : String :=
  strTrim (oracle prompt)

/-- Sort key for `x.get("scraped_at", "")`: absent and unparsable values sort
below any parsable day (day granularity — the engine never compares two
timestamps of the same day in a way any claim depends on). -/
def tsKey (a : Article) : ℤ × ℤ :=
  match a.scraped_at with
  | none => (0, 0)
  | some none => (1, 0)
  | some (some d) => (2, d)

def tsKeyLe (p q : ℤ × ℤ) : Bool :=
  decide (p.1 < q.1) || (decide (p.1 = q.1) && decide (p.2 ≤ q.2))

/-- `IndicatorBuilder._extract_sector_text`. -/
def extract_sector_text (sector : String) (arts : List Article)
    (maxWordsPerArticle maxArticles : ℕ) : String :=
  let sectorArticles := arts.filter (fun a => sector ∈ a.sectors)
  let sorted := sortStable (fun a b => tsKeyLe (tsKey b) (tsKey a)) sectorArticles
  let samples := (sorted.take maxArticles).filterMap (fun a =>
    let fullText := a.title ++ ". " ++ a.text
    let sample := strIntercalate " " ((splitWords fullText).take maxWordsPerArticle)
    if sample = "" then none else some sample)
  strIntercalate "\n\n---\n\n" samples

/-- The keyword-extraction prompt of `_llm_extract_keywords_from_text`. -/
def keywordPrompt (sector corpus : String) (target : ℕ) : String :=
  "You are analyzing Sri Lankan business news articles about the " ++ sector
    ++ " sector.\n\nTASK: Extract the " ++ toString target
    ++ " most important and specific KEYWORDS or PHRASES that represent key topics, trends, and issues in this sector.\n\n"
    ++ "RULES:\n1. Extract multi-word phrases when possible (e.g., \"renewable energy\", \"port expansion\")\n"
    ++ "2. Focus on sector-specific terminology\n"
    ++ "3. Avoid generic words like \"growth\", \"government\", \"technology\", \"officials\"\n"
    ++ "4. Avoid UI artifacts like \"click here\", \"read more\", \"subscribe\", \"mobile apps\"\n"
    ++ "5. Choose terms that business analysts would find valuable\n"
    ++ "6. Prioritize economic/business terms over general news terms\n\n"
    ++ "SECTOR: " ++ sector ++ "\n\nARTICLE EXCERPTS:\n" ++ strTake corpus 4000
    ++ "\n\nRESPOND WITH: A comma-separated list of EXACTLY " ++ toString target
    ++ " keywords/phrases. No explanations, no numbering.\n\nFORMAT: keyword1, keyword2, keyword3"

/-- The organization-extraction prompt of `_llm_extract_organizations_from_text`. -/
def orgPrompt (sector corpus : String) (target : ℕ) : String :=
  "You are analyzing Sri Lankan business news articles about the " ++ sector
    ++ " sector.\n\nTASK: Extract the " ++ toString target
    ++ " most important ORGANIZATIONS (companies, agencies, institutions) that are key players in this sector.\n\n"
    ++ "RULES:\n1. Extract full organization names (e.g., \"Central Bank of Sri Lanka\", \"John Keells Holdings\")\n"
    ++ "2. Include companies, government agencies, banks, regulatory bodies, industry associations\n"
    ++ "3. Exclude news media organizations like newspapers and TV channels\n"
    ++ "4. Avoid generic terms like \"Government\", \"Bank\", \"Committee\", \"Group\"\n"
    ++ "5. Focus on organizations with actual business operations or regulatory power\n"
    ++ "6. Prefer Sri Lankan organizations unless international ones are explicitly mentioned as key players\n\n"
    ++ "SECTOR: " ++ sector ++ "\n\nARTICLE EXCERPTS:\n" ++ strTake corpus 4000
    ++ "\n\nRESPOND WITH: A comma-separated list of EXACTLY " ++ toString target
    ++ " organization names. No explanations, no numbering.\n\nFORMAT: Organization1, Organization2, Organization3"

/-- `response.replace("\n", ",").split(",")`, stripped, empties dropped. -/
def parseCsvItems (response : String) : List String :=
  ((strSplitOn "," (strReplace response "\n" ",")).map strTrim).filter (fun s => s ≠ "")

/-- `kw.split(". ", 1)[-1].strip()`: drop a leading numbering segment. -/
def stripNumbering (kw : String) : String :=
  match strSplitOn ". " kw with
  | [] => kw
  | p :: rest => if rest = [] then p else strTrim (strIntercalate ". " rest)

/-- `IndicatorBuilder._llm_extract_keywords_from_text`. -/
def llm_extract_keywords (oracle : String → String) (sector corpus : String)
    (target : ℕ) : List String :=
  if strTrim corpus = "" then []
  else
    let response := callOllama oracle (keywordPrompt sector corpus target)
    if response = "" then []
    else
      let kws := (parseCsvItems response).map stripNumbering
      ((kws.filter (fun kw =>
          decide (¬(strToLower kw ∈ ENGLISH_STOPWORDS ∨ strToLower kw ∈ UI_ARTIFACTS
            ∨ strToLower kw ∈ GENERIC_BUZZWORDS)) && decide (3 ≤ kw.length))).take target)

/-- `IndicatorBuilder._llm_extract_organizations_from_text`. -/
def llm_extract_orgs (oracle : String → String) (sector corpus : String)
    (target : ℕ) : List String :=
  if strTrim corpus = "" then []
  else
    let response := callOllama oracle (orgPrompt sector corpus target)
    if response = "" then []
    else
      let orgs := (parseCsvItems response).map stripNumbering
      ((orgs.filter (fun org =>
          decide (¬(org ∈ BANNED_ORGANIZATIONS ∨ org ∈ BAD_ORG_NAMES))
            && !is_publisher org && decide (3 ≤ org.length))).take target)

/-- Sector keys in Python dict insertion order: first occurrence while
scanning articles and, within an article, its sector list. -/
def sectorKeys (arts : List Article) : List String :=
  dedupF (arts.flatMap Article.sectors)

/-- The sentiment scores credited to a sector (one per occurrence of the
sector tag, `sentiment_score` defaulting to 0). -/
def sectorScores (arts : List Article) (s : String) : List ℚ :=
  arts.flatMap (fun a => List.replicate (a.sectors.count s) (getSent a))

/-- The sector's `article_count` (one per occurrence of the tag). -/
def sectorCount (arts : List Article) (s : String) : ℕ :=
  (arts.map (fun a => a.sectors.count s)).sum

/-- One sector's indicator record.  `top_keywords`/`top_organizations`
carry the keyword strings (the JSON wraps each in a one-field object). -/
structure SectorInd where
  article_count : ℕ
  avg_sentiment : ℚ
  sentiment_label : String
  top_keywords : List String
  top_organizations : List String
deriving Repr, DecidableEq

/-- `IndicatorBuilder.build_sector_indicators`: a dict sector → record,
modelled as an association list in key insertion order. -/
def build_sector_indicators (oracle : String → String) (use_llm : Bool)
    (arts : List Article) : List (String × SectorInd) :=
  (sectorKeys arts).map (fun s =>
    let scores := sectorScores arts s
    let avg : ℚ := if scores = [] then 0 else listMean scores
    let label :=
      if (1 / 10 : ℚ) < avg then "positive"
      else if avg < -(1 / 10 : ℚ) then "negative"
      else "neutral"
    let kwOrgs :=
      if use_llm ∧ 0 < sectorCount arts s then
        let corpus := extract_sector_text s arts 500 15
        (llm_extract_keywords oracle s corpus 10, llm_extract_orgs oracle s corpus 10)
      else ([], [])
    (s, { article_count := sectorCount arts s
          avg_sentiment := round3 avg
          sentiment_label := label
          top_keywords := kwOrgs.1
          top_organizations := kwOrgs.2 }))

/-! ## Advanced analytics (`advanced_analytics.py`) -/

/-- `article.get('scraped_at', article.get('updated_at'))`: the raw
timestamp value the time-bucketed analytics see (`none` = no key at all). -/
def effTimestamp (a : Article) : Option (Option ℤ) :=
  match a.scraped_at with
  | some v => some v
  | none => a.updated_at

/-- Articles that survive the timestamp guard and `fromisoformat` parse,
with their calendar day, in article order. -/
def datedArticles (arts : List Article) : List (ℤ × Article) :=
  arts.filterMap (fun a =>
    match effTimestamp a with
    | some (some d) => some (d, a)
    | _ => none)

/-- `sorted(daily_data.keys())`: the distinct days, ascending. -/
def sortedDays (arts : List Article) : List ℤ :=
  sortStable (fun a b => decide (a ≤ b)) (dedupF ((datedArticles arts).map Prod.fst))

structure DayEntry where
  date : ℤ
  avg_sentiment : ℚ
  article_count : ℕ
  top_sectors : List (String × ℕ)
deriving Repr, DecidableEq

structure TrendReport where
  timeline : List DayEntry
  trend : String
  trend_strength : ℚ
  total_days : ℕ
deriving Repr, DecidableEq

/-- One day's bucket of the timeline. -/
def mkDayEntry (arts : List Article) (d : ℤ) : DayEntry :=
  let dayArts := ((datedArticles arts).filter (fun p => p.1 = d)).map Prod.snd
  let sentiments := dayArts.map getSent
  { date := d
    avg_sentiment := round3 (if sentiments = [] then 0 else listMean sentiments)
    article_count := dayArts.length
    top_sectors := (sortDescBySnd (tally (dayArts.flatMap Article.sectors))).take 3 }

/-- `np.mean([t['avg_sentiment'] for t in timeline[-3:]])`. -/
def recentMean3 (tl : List DayEntry) : ℚ :=
  listMean ((tl.drop (tl.length - 3)).map DayEntry.avg_sentiment)

/-- `np.mean([t['avg_sentiment'] for t in timeline[-6:-3]])`. -/
def previousMean3 (tl : List DayEntry) : ℚ :=
  listMean (((tl.drop (tl.length - 6)).take 3).map DayEntry.avg_sentiment)

/-- `AdvancedAnalytics.temporal_trend_analysis`. -/
def temporal_trend_analysis (arts : List Article) : TrendReport :=
  let timeline := (sortedDays arts).map (mkDayEntry arts)
  if 6 ≤ timeline.length then
    { timeline := timeline
      trend := if previousMean3 timeline < recentMean3 timeline
        then "improving" else "declining"
      trend_strength := round3 |recentMean3 timeline - previousMean3 timeline|
      total_days := timeline.length }
  else
    { timeline := timeline, trend := "insufficient_data"
      trend_strength := round3 0, total_days := timeline.length }

/-! ### Anomaly detection -/

structure AnomalyRec where
  title : String
  url : String
  sentiment : ℚ
  z_score : ℚ
  sectors : List String
  source : String
  anomaly_type : String
deriving Repr, DecidableEq

/-- The anomaly artifact; the insufficient-data payload has only the
`anomalies`/`message` keys, the full payload the remaining ones. -/
structure AnomalyReport where
  anomalies : List AnomalyRec
  message : Option String := none
  total_anomalies : Option ℕ := none
  mean_sentiment : Option ℚ := none
  std_sentiment : Option ℚ := none
deriving Repr, DecidableEq

/-- The data points of `detect_anomalies`: articles with a present
`sentiment_score`. -/
def scoredArticles (arts : List Article) : List Article :=
  arts.filter (fun a => a.sentiment_score.isSome)

/-- Population mean of the scored articles. -/
def anomalyMean (arts : List Article) : ℚ :=
  listMean ((scoredArticles arts).map getSent)

/-- Population variance of the scored articles (`np.std` squared). -/
def anomalyVar (arts : List Article) : ℚ :=
  listMean (((scoredArticles arts).map getSent).map
    (fun x => (x - anomalyMean arts) ^ 2))

/-- `round(z, 2)` for `z = |x - m| / √v`, computed exactly:
the nearest integer to `100·z` is `sqrtRound(100²·(x-m)²/v)`. -/
def zScoreRounded (m v x : ℚ) : ℚ := (sqrtRound (10000 * (x - m) ^ 2 / v) : ℚ) / 100

/-- `round(std, 3)` for `std = √v`. -/
def stdRounded (v : ℚ) : ℚ := (sqrtRound (1000000 * v) : ℚ) / 1000

/-- `AdvancedAnalytics.detect_anomalies`.  The z-score test
`|x - m|/√v > 2` is expressed exactly as `(x - m)² > 4·v`. -/
def detect_anomalies (arts : List Article) : AnomalyReport :=
  let pts := scoredArticles arts
  if pts.length < 10 then
    { anomalies := [], message := some "Insufficient data for anomaly detection" }
  else
    let m := anomalyMean arts
    let v := anomalyVar arts
    let flagged :=
      if v = 0 then []
      else pts.filter (fun a => decide (4 * v < (getSent a - m) ^ 2))
    let recs := flagged.map (fun a =>
      { title := strTake a.title 100, url := a.url
        sentiment := round3 (getSent a)
        z_score := zScoreRounded m v (getSent a)
        sectors := a.sectors, source := a.source
        anomaly_type :=
          if getSent a < m then "extremely_negative" else "extremely_positive" })
    let sorted := sortStable (fun x y => decide (y.z_score ≤ x.z_score)) recs
    { anomalies := sorted.take 20
      total_anomalies := some sorted.length
      mean_sentiment := some (round3 m)
      std_sentiment := some (stdRounded v) }

/-! ### Sector clustering -/

structure ClusterMember where
  sector : String
  avg_sentiment : ℚ
  article_count : ℕ
deriving Repr, DecidableEq

structure ClusterRec where
  cluster_id : ℕ
  label : String
  avg_sentiment : ℚ
  sectors : List ClusterMember
deriving Repr, DecidableEq

structure ClusterReport where
  clusters : List ClusterRec
  message : Option String := none
  total_sectors : Option ℕ := none
deriving Repr, DecidableEq

/-- Total `len(entities.ORG)` over a sector's occurrences. -/
def sectorOrgCount (arts : List Article) (s : String) : ℕ :=
  (arts.map (fun a => a.sectors.count s * a.entities_org.length)).sum

/-- Word counts credited to a sector, one per tag occurrence. -/
def sectorWordCounts (arts : List Article) (s : String) : List ℚ :=
  arts.flatMap (fun a => List.replicate (a.sectors.count s) a.word_count)

/-- The raw (unstandardized) feature vector of one sector:
`[mean sentiment, article count, org mentions, mean word count]`. -/
def sectorFeatures (arts : List Article) (s : String) : List ℚ :=
  [listMean (sectorScores arts s),
   (sectorCount arts s : ℚ),
   (sectorOrgCount arts s : ℚ),
   if sectorWordCounts arts s = [] then 0 else listMean (sectorWordCounts arts s)]

/-- `AdvancedAnalytics.sector_clustering`.  The sklearn pipeline
(`StandardScaler().fit_transform` followed by
`KMeans(n_clusters, random_state=42, n_init=10).fit_predict`) is external
library code with a fixed seed; one run of it is the explicit deterministic
assignment function `cl` from the raw feature matrix and the cluster count
to one label per row. -/
def sector_clustering (cl : List (List ℚ) → ℕ → List ℕ)
    (arts : List Article) : ClusterReport :=
  let names := sectorKeys arts
  if names.length < 3 then
    { clusters := [], message := some "Insufficient sectors for clustering" }
  else
    let labels := cl (names.map (sectorFeatures arts)) (min 3 names.length)
    let assignment := names.zip labels
    let member := fun (s : String) =>
      { sector := s
        avg_sentiment := round3 (listMean (sectorScores arts s))
        article_count := sectorCount arts s : ClusterMember }
    let clusterRecs := (dedupF labels).map (fun cid =>
      let members := (assignment.filter (fun p => p.2 = cid)).map (fun p => member p.1)
      let avgCluster := listMean (members.map ClusterMember.avg_sentiment)
      { cluster_id := cid
        label :=
          if (1 / 5 : ℚ) < avgCluster then "High Performance Sectors"
          else if avgCluster < -(1 / 10 : ℚ) then "Challenged Sectors"
          else "Stable Sectors"
        avg_sentiment := round3 avgCluster
        sectors := sortStable
          (fun x y => decide (y.article_count ≤ x.article_count)) members : ClusterRec })
    { clusters := sortStable
        (fun x y => decide (y.avg_sentiment ≤ x.avg_sentiment)) clusterRecs
      total_sectors := some names.length }

/-! ### Velocity analysis -/

structure VelocityRec where
  sector : String
  current_sentiment : ℚ
  previous_sentiment : ℚ
  velocity : ℚ
  trend : String
  data_points : ℕ
deriving Repr, DecidableEq

structure VelocityReport where
  sector_velocities : List VelocityRec
  fastest_improving : List VelocityRec
  fastest_declining : List VelocityRec
deriving Repr, DecidableEq

/-- The distinct days on which a sector has dated articles, ascending. -/
def sectorSortedDays (arts : List Article) (s : String) : List ℤ :=
  sortStable (fun a b => decide (a ≤ b))
    (dedupF ((datedArticles arts).filterMap
      (fun p => if s ∈ p.2.sectors then some p.1 else none)))

/-- The sentiment scores of a sector on a given day (one per tag
occurrence, in article order). -/
def sectorDayScores (arts : List Article) (s : String) (d : ℤ) : List ℚ :=
  (datedArticles arts).flatMap (fun p =>
    if p.1 = d then List.replicate (p.2.sectors.count s) (getSent p.2) else [])

/-- The velocity record of a sector with at least two distinct days. -/
def mkVelocityRec (arts : List Article) (s : String) : Option VelocityRec :=
  match (sectorSortedDays arts s).reverse with
  | dLast :: dPrev :: rest =>
      let recent := listMean (sectorDayScores arts s dLast)
      let previous := listMean (sectorDayScores arts s dPrev)
      let v := recent - previous
      some { sector := s
             current_sentiment := round3 recent
             previous_sentiment := round3 previous
             velocity := round3 v
             trend :=
               if (1 / 10 : ℚ) < v then "accelerating"
               else if v < -(1 / 10 : ℚ) then "decelerating"
               else "stable"
             data_points := rest.length + 2 }
  | _ => none

/-- `AdvancedAnalytics.velocity_analysis`. -/
def velocity_analysis (arts : List Article) : VelocityReport :=
  let keys := dedupF ((datedArticles arts).flatMap (fun p => p.2.sectors))
  let recs := keys.filterMap (mkVelocityRec arts)
  let sorted := sortStable (fun x y => decide (|y.velocity| ≤ |x.velocity|)) recs
  { sector_velocities := sorted
    fastest_improving := (sorted.filter (fun v => decide (0 < v.velocity))).take 5
    fastest_declining := (sorted.filter (fun v => decide (v.velocity < 0))).take 5 }

/-! ## Sector correlations (`generate_correlations.py`) -/

/-- `sorted(list({s.lower() for s in art.get("sectors", [])}))`: an
article's distinct lower-cased sectors in ascending order. -/
def corrSectors (a : Article) : List String :=
  sortStable (fun x y => decide (x ≤ y)) ((a.sectors.map strToLower).dedup)

/-- The sector pairs an article contributes (articles with fewer than 2
distinct sectors contribute nothing). -/
def articlePairs (a : Article) : List (String × String) :=
  if 2 ≤ (corrSectors a).length then pairsOf (corrSectors a) else []

/-- All pair contributions, in scan order (so `dedupF` of this list is the
`pair_counts` dict key order). -/
def multiPairs (arts : List Article) : List (String × String) :=
  arts.flatMap articlePairs

/-- `pair_counts[(s1, s2)]`. -/
def pairCount (arts : List Article) (p : String × String) : ℕ :=
  (multiPairs arts).count p

/-- `pair_sentiments[(s1, s2)]`, in article order. -/
def pairSents (arts : List Article) (p : String × String) : List ℚ :=
  arts.flatMap (fun a => if p ∈ articlePairs a then [getSent a] else [])

/-- Whether an article feeds the correlation pass at all. -/
def isMultiSector (a : Article) : Bool := decide (2 ≤ (corrSectors a).length)

/-- `len(sector_article_sets[s])`: the number of multi-sector articles
mentioning `s` (article indices are distinct, so the set size is a count). -/
def sectorArtCount (arts : List Article) (s : String) : ℕ :=
  (arts.filter (fun a => isMultiSector a && decide (s ∈ corrSectors a))).length

/-- `len(sector_article_sets[s1] | sector_article_sets[s2])`. -/
def unionCount (arts : List Article) (s1 s2 : String) : ℕ :=
  (arts.filter (fun a =>
    isMultiSector a && (decide (s1 ∈ corrSectors a) || decide (s2 ∈ corrSectors a)))).length

/-- The pair's Jaccard similarity `pair_count / union_size` (`0` on an empty
union). -/
def jaccardOf (arts : List Article) (p : String × String) : ℚ :=
  let u := unionCount arts p.1 p.2
  if 0 < u then (pairCount arts p : ℚ) / u else 0

/-- `max(pair_counts.values())` (`0` when there are no pairs). -/
def maxPairCount (arts : List Article) : ℕ :=
  ((dedupF (multiPairs arts)).map (pairCount arts)).foldr max 0

/-- `max(min_co_mentions_base, int(0.01 * max_pair_count) or 1)` with the
default base 2; `int(0.01·n)` is `⌊n/100⌋`. -/
def dynamicMinCoMentions (arts : List Article) : ℕ :=
  max 2 (if maxPairCount arts / 100 = 0 then 1 else maxPairCount arts / 100)

/-- The three gates of the correlation loop (the two `continue`s plus the
leading count check), as one predicate on a pair key. -/
def corrGate (arts : List Article) (p : String × String) : Bool :=
  decide (dynamicMinCoMentions arts ≤ pairCount arts p)
    && decide ((1 / 20 : ℚ) ≤ jaccardOf arts p)
    && decide ((1 / 50 : ℚ) ≤ (pairCount arts p : ℚ) / (arts.length : ℚ))

structure CorrRec where
  sector1 : String
  sector2 : String
  co_occurrence_count : ℕ
  sector1_article_count : ℕ
  sector2_article_count : ℕ
  jaccard : ℚ
  global_fraction : ℚ
  avg_sentiment : ℚ
  score : ℚ
  correlation_strength : String
deriving Repr, DecidableEq

structure CorrReport where
  top_correlations : List CorrRec
  total_correlations : ℕ
deriving Repr, DecidableEq

/-- The output record of one qualifying pair. -/
def mkCorrRec (arts : List Article) (p : String × String) : CorrRec :=
  let c := pairCount arts p
  let j := jaccardOf arts p
  let gf : ℚ := (c : ℚ) / (arts.length : ℚ)
  let avgSent : ℚ :=
    if pairSents arts p = [] then 0 else listMean (pairSents arts p)
  { sector1 := p.1, sector2 := p.2
    co_occurrence_count := c
    sector1_article_count := sectorArtCount arts p.1
    sector2_article_count := sectorArtCount arts p.2
    jaccard := round3 j
    global_fraction := round3 gf
    avg_sentiment := round3 avgSent
    score := round3 ((1 / 2 : ℚ) * ((c : ℚ) / (maxPairCount arts : ℚ))
      + (3 / 10 : ℚ) * j + (1 / 5 : ℚ) * gf)
    correlation_strength :=
      if 8 ≤ c ∧ (3 / 20 : ℚ) ≤ j then "very_strong"
      else if 4 ≤ c ∧ (1 / 10 : ℚ) ≤ j then "strong"
      else "moderate" }

/-- `generate_super_sector_correlations` (the in-memory artifact; the empty
branches are `_write_empty`). -/
def generate_super_sector_correlations (arts : List Article) : CorrReport :=
  if arts = [] then { top_correlations := [], total_correlations := 0 }
  else
    let keys := dedupF (multiPairs arts)
    if keys = [] then { top_correlations := [], total_correlations := 0 }
    else
      let quals := (keys.filter (corrGate arts)).map (mkCorrRec arts)
      let sorted := sortStable (fun x y => decide (y.score ≤ x.score)) quals
      { top_correlations := sorted.take 20
        total_correlations := sorted.length }

/-! ## Claim-side definitions and concrete inputs -/

/-- The spec's reading of a sector keyword's frequency ("top keywords …
ranked by descending frequency"): occurrences of the keyword among the
`keywords` fields of the articles carrying the sector tag. -/
def claimKeywordFrequency (arts : List Article) (s kw : String) : ℕ :=
  ((arts.filter (fun a => decide (s ∈ a.sectors))).flatMap Article.keywords).count kw

/-- Ten scored articles: nine scores of `0.0` and one score of `0.9`
(the anomaly-detector scenario of the spec). -/
def exAnomArts : List Article :=
  List.replicate 9 ({ sentiment_score := some 0 } : Article)
    ++ [{ sentiment_score := some (9 / 10) }]

/-- An article on calendar day `d` with sentiment `q`. -/
def dayArt (d : ℤ) (q : ℚ) : Article :=
  { sentiment_score := some q, scraped_at := some (some d) }

/-- Six days of articles: three flat days followed by three positive days. -/
def exTrendArts : List Article :=
  [dayArt 0 0, dayArt 1 0, dayArt 2 0,
   dayArt 3 (1 / 2), dayArt 4 (1 / 2), dayArt 5 (1 / 2)]

/-- One sector over two days with a small (0.03) day-over-day change. -/
def exVelArts : List Article :=
  [{ sentiment_score := some 0, sectors := ["s"], scraped_at := some (some 0) },
   { sentiment_score := some (3 / 100), sectors := ["s"], scraped_at := some (some 1) }]

/-- Two articles both tagged with the same two sectors: the pair passes all
correlation gates. -/
def exCorrArts : List Article :=
  [{ sentiment_score := some (1 / 5), sectors := ["alpha", "beta"] },
   { sentiment_score := some (1 / 5), sectors := ["alpha", "beta"] }]

/-- A single scored single-sector article: too little data for every
analytic at once. -/
def exSmallArts : List Article :=
  [{ sentiment_score := some (1 / 2), sectors := ["finance"] }]

/-- Three identical finance articles whose `keywords` field carries
"alpha beta" three times. -/
def exSectorArts : List Article :=
  List.replicate 3
    ({ sentiment_score := some (1 / 2), sectors := ["finance"],
       keywords := ["alpha beta"], title := "News" } : Article)

/-- A fixed LLM response, as one concrete run of the Ollama call might
return it: a keyword that is pure publisher noise, then a real phrase. -/
def exOracle : String → String := fun _ => "ft.lk, alpha beta"

/-- An article with no `sentiment_score` key at all. -/
def exNoScoreArt : Article := {}

/-- The velocity record `exVelArts` produces. -/
def exVelRec : VelocityRec :=
  { sector := "s", current_sentiment := 3 / 100, previous_sentiment := 0,
    velocity := 3 / 100, trend := "stable", data_points := 2 }

/-- The correlation record the pair ("alpha", "beta") produces on
`exCorrArts`. -/
def exCorrRec : CorrRec :=
  { sector1 := "alpha", sector2 := "beta", co_occurrence_count := 2,
    sector1_article_count := 2, sector2_article_count := 2,
    jaccard := 1, global_fraction := 1, avg_sentiment := 1 / 5,
    score := 1, correlation_strength := "moderate" }

/-- The sector record `exSectorArts` produces under `exOracle`. -/
def exSectorInd : SectorInd :=
  { article_count := 3, avg_sentiment := 1 / 2, sentiment_label := "positive",
    top_keywords := ["ft.lk", "alpha beta"], top_organizations := ["alpha beta"] }

/-! ## Helper lemmas -/

theorem insertStable_perm (le : α → α → Bool) (x : α) (l : List α) :
    List.Perm (insertStable le x l) (x :: l) := by
  induction l with
  | nil => exact List.Perm.refl _
  | cons y ys ih =>
    unfold insertStable
    split
    · exact List.Perm.refl _
    · exact (ih.cons y).trans (List.Perm.swap x y ys)

theorem sortStable_perm (le : α → α → Bool) (l : List α) :
    List.Perm (sortStable le l) l := by
  induction l with
  | nil => exact List.Perm.refl _
  | cons x xs ih =>
    exact (insertStable_perm le x (sortStable le xs)).trans (ih.cons x)

theorem length_sortStable (le : α → α → Bool) (l : List α) :
    (sortStable le l).length = l.length :=
  (sortStable_perm le l).length_eq

theorem mem_sortStable {le : α → α → Bool} {l : List α} {a : α} :
    a ∈ sortStable le l ↔ a ∈ l :=
  (sortStable_perm le l).mem_iff

theorem pairwise_insertStable {le : α → α → Bool}
    (htrans : ∀ a b c, le a b = true → le b c = true → le a c = true)
    (htotal : ∀ a b, le a b = true ∨ le b a = true)
    (x : α) {l : List α} (h : l.Pairwise (fun a b => le a b = true)) :
    (insertStable le x l).Pairwise (fun a b => le a b = true) := by
  induction l with
  | nil => simp [insertStable]
  | cons y ys ih =>
    rw [List.pairwise_cons] at h
    obtain ⟨hy, hys⟩ := h
    unfold insertStable
    by_cases hxy : le x y = true
    · rw [if_pos hxy]
      refine List.pairwise_cons.mpr ⟨?_, List.pairwise_cons.mpr ⟨hy, hys⟩⟩
      intro z hz
      rcases List.mem_cons.mp hz with rfl | hz
      · exact hxy
      · exact htrans x y z hxy (hy z hz)
    · rw [if_neg hxy]
      refine List.pairwise_cons.mpr ⟨?_, ih hys⟩
      intro z hz
      rcases List.mem_cons.mp ((insertStable_perm le x ys).mem_iff.mp hz) with rfl | hz
      · rcases htotal z y with h | h
        · exact absurd h hxy
        · exact h
      · exact hy z hz

theorem pairwise_sortStable {le : α → α → Bool}
    (htrans : ∀ a b c, le a b = true → le b c = true → le a c = true)
    (htotal : ∀ a b, le a b = true ∨ le b a = true)
    (l : List α) :
    (sortStable le l).Pairwise (fun a b => le a b = true) := by
  induction l with
  | nil => simp [sortStable]
  | cons x xs ih => exact pairwise_insertStable htrans htotal x ih

theorem pairwise_sortStable_le {α β : Type} [LinearOrder β] (f : α → β)
    (l : List α) :
    (sortStable (fun x y => decide (f x ≤ f y)) l).Pairwise
      (fun x y => f x ≤ f y) := by
  have h := @pairwise_sortStable _ (fun x y => decide (f x ≤ f y))
      (fun a b c hab hbc => by
        simp only [decide_eq_true_eq] at hab hbc ⊢
        exact le_trans hab hbc)
      (fun a b => by
        rcases le_total (f a) (f b) with h | h
        · exact Or.inl (by simpa using h)
        · exact Or.inr (by simpa using h)) l
  exact h.imp (fun h' => by simpa using h')

theorem pairwise_sortStable_ge {α β : Type} [LinearOrder β] (f : α → β)
    (l : List α) :
    (sortStable (fun x y => decide (f y ≤ f x)) l).Pairwise
      (fun x y => f y ≤ f x) := by
  have h := @pairwise_sortStable _ (fun x y => decide (f y ≤ f x))
      (fun a b c hab hbc => by
        simp only [decide_eq_true_eq] at hab hbc ⊢
        exact le_trans hbc hab)
      (fun a b => by
        rcases le_total (f a) (f b) with h | h
        · exact Or.inr (by simpa using h)
        · exact Or.inl (by simpa using h)) l
  exact h.imp (fun h' => by simpa using h')

/-- `sqrtRound q` is `n` whenever `q` lies in the half-open square-root
window of `n` (the `n = 0` window needs no lower bound). -/
theorem sqrtRound_eq {q : ℚ} {n : ℕ} (h0 : 0 ≤ q)
    (h1 : ((n : ℚ) - 1 / 2) ^ 2 ≤ q ∨ n = 0)
    (h2 : q < ((n : ℚ) + 1 / 2) ^ 2) :
    sqrtRound q = n := by
  have hm2 : ((Nat.sqrt ⌊q⌋₊ : ℚ)) ^ 2 ≤ q := by
    have h := Nat.sqrt_le ⌊q⌋₊
    have hfl : ((⌊q⌋₊ : ℕ) : ℚ) ≤ q := Nat.floor_le h0
    have hc : ((Nat.sqrt ⌊q⌋₊ * Nat.sqrt ⌊q⌋₊ : ℕ) : ℚ) ≤ ((⌊q⌋₊ : ℕ) : ℚ) := by
      exact_mod_cast h
    push_cast at hc
    nlinarith [hc, hfl]
  have hm1 : q < ((Nat.sqrt ⌊q⌋₊ : ℚ) + 1) ^ 2 := by
    have h := Nat.lt_succ_sqrt ⌊q⌋₊
    have hfl : q < ((⌊q⌋₊ : ℕ) : ℚ) + 1 := Nat.lt_floor_add_one q
    have hc : ((⌊q⌋₊ : ℕ) : ℚ) + 1
        ≤ (((Nat.sqrt ⌊q⌋₊ + 1) * (Nat.sqrt ⌊q⌋₊ + 1) : ℕ) : ℚ) := by
      exact_mod_cast h
    push_cast at hc
    nlinarith [hfl, hc]
  have hmn : Nat.sqrt ⌊q⌋₊ ≤ n := by
    have hq : ((Nat.sqrt ⌊q⌋₊ : ℚ)) ^ 2 < ((n : ℚ) + 1 / 2) ^ 2 :=
      lt_of_le_of_lt hm2 h2
    have hlt := lt_of_pow_lt_pow_left₀ 2 (by positivity) hq
    have h2m : 2 * Nat.sqrt ⌊q⌋₊ < 2 * n + 1 := by
      have hc : ((2 * Nat.sqrt ⌊q⌋₊ : ℕ) : ℚ) < ((2 * n + 1 : ℕ) : ℚ) := by
        push_cast
        linarith
      exact_mod_cast hc
    omega
  unfold sqrtRound
  split
  · rename_i hif
    rcases h1 with h1 | h1
    · by_cases hn : n = 0
      · omega
      · have hq : ((n : ℚ) - 1 / 2) ^ 2 < ((Nat.sqrt ⌊q⌋₊ : ℚ) + 1 / 2) ^ 2 :=
          lt_of_le_of_lt h1 hif
        have hlt := lt_of_pow_lt_pow_left₀ 2 (by positivity) hq
        have h2m : 2 * n < 2 * Nat.sqrt ⌊q⌋₊ + 2 := by
          have hc : ((2 * n : ℕ) : ℚ) < ((2 * Nat.sqrt ⌊q⌋₊ + 2 : ℕ) : ℚ) := by
            push_cast
            linarith
          exact_mod_cast hc
        omega
    · omega
  · rename_i hif
    have hq2 : ((Nat.sqrt ⌊q⌋₊ : ℚ) + 1 / 2) ^ 2 ≤ q := not_lt.mp hif
    have hmltn : Nat.sqrt ⌊q⌋₊ < n := by
      have hq : ((Nat.sqrt ⌊q⌋₊ : ℚ) + 1 / 2) ^ 2 < ((n : ℚ) + 1 / 2) ^ 2 :=
        lt_of_le_of_lt hq2 h2
      have hlt := lt_of_pow_lt_pow_left₀ 2 (by positivity) hq
      have : (Nat.sqrt ⌊q⌋₊ : ℚ) < (n : ℚ) := by linarith
      exact_mod_cast this
    have hnm : n ≤ Nat.sqrt ⌊q⌋₊ + 1 := by
      rcases h1 with h1 | h1
      · have hq : ((n : ℚ) - 1 / 2) ^ 2 < ((Nat.sqrt ⌊q⌋₊ : ℚ) + 1) ^ 2 :=
          lt_of_le_of_lt h1 hm1
        have hlt := lt_of_pow_lt_pow_left₀ 2 (by positivity) hq
        have h2m : 2 * n < 2 * Nat.sqrt ⌊q⌋₊ + 3 := by
          have hc : ((2 * n : ℕ) : ℚ) < ((2 * Nat.sqrt ⌊q⌋₊ + 3 : ℕ) : ℚ) := by
            push_cast
            linarith
          exact_mod_cast hc
        omega
      · omega
    omega

/-! ## C1: national overall sentiment -/

/-- C1: `build_national_indicators` sets `overall_sentiment` to the
arithmetic mean of the `sentiment_score` values of exactly the articles in
which the field is present, rounded to 3 decimals; when no article carries
a score (including the empty article set) it is `0.0`. -/
theorem national_overall_sentiment_mean (arts : List Article) (now : String) :
    (build_national_indicators arts now).overall_sentiment =
      if presentScores arts = [] then 0
      else round3 ((presentScores arts).sum / ((presentScores arts).length : ℚ)) := by
  unfold build_national_indicators
  by_cases h : presentScores arts = [] <;>
    simp [h, listMean, round3, roundTo]

/-! ## C5: risk and opportunity thresholds, ordering, caps -/

/-- C5: an article contributes a risk entry exactly when
`sentiment_score < -0.3` (severity `"high"` exactly when `< -0.5`, else
`"medium"`) and an opportunity entry exactly when `> 0.3` (impact `"high"`
exactly when `> 0.5`); risks are sorted ascending by sentiment,
opportunities descending, and the published lists are the top 10 (with a
top-5 slice of the same ranking). -/
theorem risks_opportunities_thresholds (arts : List Article) :
    List.Perm (riskCandidates arts)
      ((arts.filter (fun a => decide (getSent a < -(3 / 10 : ℚ)))).map (fun a =>
        { title := a.title, url := a.url, sectors := a.sectors
          sentiment := round3 (getSent a)
          severity := if getSent a < -(1 / 2 : ℚ) then "high" else "medium"
          rtype := "negative_sentiment" })) ∧
    (riskCandidates arts).Pairwise (fun x y => x.sentiment ≤ y.sentiment) ∧
    List.Perm (oppCandidates arts)
      ((arts.filter (fun a => decide ((3 / 10 : ℚ) < getSent a))).map (fun a =>
        { title := a.title, url := a.url, sectors := a.sectors
          sentiment := round3 (getSent a)
          impact := if (1 / 2 : ℚ) < getSent a then "high" else "medium"
          rtype := "positive_sentiment" })) ∧
    (oppCandidates arts).Pairwise (fun x y => y.sentiment ≤ x.sentiment) ∧
    (detect_risks_opportunities arts).risks = (riskCandidates arts).take 10 ∧
    (detect_risks_opportunities arts).top_risks = (riskCandidates arts).take 5 ∧
    (detect_risks_opportunities arts).total_risks = (arts.filter riskCond).length ∧
    (detect_risks_opportunities arts).opportunities = (oppCandidates arts).take 10 ∧
    (detect_risks_opportunities arts).top_opportunities = (oppCandidates arts).take 5 ∧
    (detect_risks_opportunities arts).total_opportunities
      = (arts.filter oppCond).length := by
  refine ⟨sortStable_perm _ _,
    pairwise_sortStable_le (fun r : RiskRec => r.sentiment) _,
    sortStable_perm _ _,
    pairwise_sortStable_ge (fun r : OppRec => r.sentiment) _,
    rfl, rfl, ?_, rfl, rfl, ?_⟩
  · show (riskCandidates arts).length = _
    simp [riskCandidates, length_sortStable]
  · show (oppCandidates arts).length = _
    simp [oppCandidates, length_sortStable]

/-! ## C10: risk/opportunity mutual exclusivity -/

/-- C10: no article qualifies both as a risk and as an opportunity (the
conditions `sentiment_score < -0.3` and `> 0.3` are mutually exclusive),
and an article with no `sentiment_score` field is treated as score 0 and
contributes to neither list. -/
theorem risk_opportunity_exclusive (arts : List Article) (a : Article)
    (h : a ∈ arts) :
    (¬(riskCond a = true ∧ oppCond a = true)) ∧
    (a.sentiment_score = none →
      getSent a = 0 ∧ riskCond a = false ∧ oppCond a = false) ∧
    arts.filter (fun x => riskCond x && oppCond x) = [] := by
  refine ⟨?_, ?_, ?_⟩
  · rintro ⟨h1, h2⟩
    simp only [riskCond, oppCond, decide_eq_true_eq] at h1 h2
    linarith
  · intro hn
    refine ⟨by simp [getSent, hn], ?_, ?_⟩ <;>
      · simp only [riskCond, oppCond, getSent, hn, Option.getD_none,
          decide_eq_false_iff_not]
        norm_num
  · rw [List.filter_eq_nil_iff]
    intro x _
    simp only [Bool.and_eq_true, riskCond, oppCond, decide_eq_true_eq, not_and]
    intro h1 h2
    linarith

/-- Witness for C10 at a concrete score-less article. -/
theorem risk_opportunity_exclusive_witness :
    exNoScoreArt ∈ [exNoScoreArt] ∧
    riskCond exNoScoreArt = false ∧ oppCond exNoScoreArt = false := by
  have h := risk_opportunity_exclusive [exNoScoreArt] exNoScoreArt
    (List.mem_singleton.mpr rfl)
  exact ⟨List.mem_singleton.mpr rfl, (h.2.1 rfl).2⟩

/-! ## C3: anomaly detection by z-score -/

/-- C3: with at least 10 scored articles, the anomaly detector flags
exactly the articles with `|z| > 2` (expressed exactly as
`(x - m)² > 4·v`), labels each flagged article `extremely_negative` when
its score is below the mean and `extremely_positive` otherwise, reports
them sorted descending by the (rounded) absolute z-score, capped at 20,
with the uncapped count reported separately; with zero variance it reports
zero anomalies. -/
theorem anomaly_detector_zscores (arts : List Article)
    (h10 : 10 ≤ (scoredArticles arts).length) :
    (anomalyVar arts = 0 →
      (detect_anomalies arts).anomalies = [] ∧
      (detect_anomalies arts).total_anomalies = some 0) ∧
    (anomalyVar arts ≠ 0 →
      ∃ l : List AnomalyRec,
        List.Perm l
          (((scoredArticles arts).filter (fun a =>
              decide (4 * anomalyVar arts < (getSent a - anomalyMean arts) ^ 2))).map
            (fun a =>
              { title := strTake a.title 100, url := a.url
                sentiment := round3 (getSent a)
                z_score := zScoreRounded (anomalyMean arts) (anomalyVar arts) (getSent a)
                sectors := a.sectors, source := a.source
                anomaly_type := if getSent a < anomalyMean arts
                  then "extremely_negative" else "extremely_positive" })) ∧
        l.Pairwise (fun x y => y.z_score ≤ x.z_score) ∧
        (detect_anomalies arts).anomalies = l.take 20 ∧
        (detect_anomalies arts).total_anomalies = some l.length) := by
  have hlt : ¬ (scoredArticles arts).length < 10 := by omega
  constructor
  · intro hv
    simp [detect_anomalies, hlt, hv, sortStable]
  · intro hv
    refine ⟨_, sortStable_perm _ _,
      pairwise_sortStable_ge (fun r : AnomalyRec => r.z_score) _, ?_, ?_⟩ <;>
      simp [detect_anomalies, hlt, hv]

set_option maxRecDepth 8000 in
/-- Witness for C3: the spec's 10-article scenario (nine scores `0.0`, one
`0.9`): variance is nonzero and exactly the outlier is flagged, with
`anomaly_type = extremely_positive` and z-score 3. -/
theorem anomaly_detector_zscores_witness :
    10 ≤ (scoredArticles exAnomArts).length ∧
    anomalyVar exAnomArts ≠ 0 ∧
    (detect_anomalies exAnomArts).anomalies =
      [{ title := "", url := "", sentiment := 9 / 10, z_score := 3,
         sectors := [], source := "", anomaly_type := "extremely_positive" }] ∧
    (detect_anomalies exAnomArts).total_anomalies = some 1 := by
  have hm : anomalyMean exAnomArts = 9 / 100 := by
    norm_num [anomalyMean, listMean, scoredArticles, exAnomArts, getSent,
      List.replicate]
  have hv : anomalyVar exAnomArts = 729 / 10000 := by
    norm_num [anomalyVar, anomalyMean, listMean, scoredArticles, exAnomArts,
      getSent, List.replicate]
  have hs : sqrtRound 90000 = 300 :=
    sqrtRound_eq (by norm_num) (Or.inl (by norm_num)) (by norm_num)
  have hz : zScoreRounded (9 / 100) (729 / 10000) (9 / 10) = 3 := by
    have harg : 10000 * ((9 : ℚ) / 10 - 9 / 100) ^ 2 / (729 / 10000) = 90000 := by
      norm_num
    rw [zScoreRounded, harg, hs]
    norm_num
  obtain ⟨l, hperm, -, -, htot⟩ :=
    (anomaly_detector_zscores exAnomArts (by decide)).2 (by rw [hv]; norm_num)
  have hlen : l.length = 1 := by
    rw [hperm.length_eq]
    simp only [hm, hv]
    norm_num [scoredArticles, exAnomArts, getSent, List.replicate]
  refine ⟨by decide, by rw [hv]; norm_num, ?_, by rw [htot, hlen]⟩
  simp only [detect_anomalies, hm, hv]
  norm_num [scoredArticles, exAnomArts, getSent, List.replicate, hz,
    sortStable, insertStable, round3, roundTo, round_eq, strTake]

/-! ## C4: temporal trend verdict -/

/-- C4: with fewer than 6 distinct days the verdict is
`insufficient_data` with strength 0; with at least 6 it is `improving`
exactly when the mean of the last 3 daily averages strictly exceeds the
mean of the 3 before those, `declining` otherwise, and the strength is the
rounded absolute difference. -/
theorem temporal_trend_verdict (arts : List Article) :
    (temporal_trend_analysis arts).timeline.length
      = (dedupF ((datedArticles arts).map Prod.fst)).length ∧
    ((temporal_trend_analysis arts).timeline.length < 6 →
      (temporal_trend_analysis arts).trend = "insufficient_data" ∧
      (temporal_trend_analysis arts).trend_strength = 0) ∧
    (6 ≤ (temporal_trend_analysis arts).timeline.length →
      ((temporal_trend_analysis arts).trend = "improving"
        ↔ previousMean3 ((temporal_trend_analysis arts).timeline)
            < recentMean3 ((temporal_trend_analysis arts).timeline)) ∧
      ((temporal_trend_analysis arts).trend = "declining"
        ↔ ¬ previousMean3 ((temporal_trend_analysis arts).timeline)
            < recentMean3 ((temporal_trend_analysis arts).timeline)) ∧
      (temporal_trend_analysis arts).trend_strength
        = round3 |recentMean3 ((temporal_trend_analysis arts).timeline)
            - previousMean3 ((temporal_trend_analysis arts).timeline)|) := by
  by_cases h6 : 6 ≤ ((sortedDays arts).map (mkDayEntry arts)).length
  · have hrep : temporal_trend_analysis arts =
        { timeline := (sortedDays arts).map (mkDayEntry arts)
          trend := if previousMean3 ((sortedDays arts).map (mkDayEntry arts))
              < recentMean3 ((sortedDays arts).map (mkDayEntry arts))
            then "improving" else "declining"
          trend_strength := round3 |recentMean3 ((sortedDays arts).map (mkDayEntry arts))
              - previousMean3 ((sortedDays arts).map (mkDayEntry arts))|
          total_days := ((sortedDays arts).map (mkDayEntry arts)).length } := by
      unfold temporal_trend_analysis
      rw [if_pos h6]
    rw [hrep]
    refine ⟨by simp [sortedDays, length_sortStable], ?_, ?_⟩
    · intro hlt
      simp only at hlt
      omega
    · intro _
      refine ⟨?_, ?_, rfl⟩ <;> split <;> simp_all
  · have hrep : temporal_trend_analysis arts =
        { timeline := (sortedDays arts).map (mkDayEntry arts)
          trend := "insufficient_data"
          trend_strength := round3 0
          total_days := ((sortedDays arts).map (mkDayEntry arts)).length } := by
      unfold temporal_trend_analysis
      rw [if_neg h6]
    rw [hrep]
    refine ⟨by simp [sortedDays, length_sortStable], ?_, ?_⟩
    · intro _
      exact ⟨rfl, by simp [round3, roundTo]⟩
    · intro hge
      simp only at hge
      omega

/-- Witness for C4: six days, three flat then three at `+0.5`: the verdict
is `improving` with strength `0.5`. -/
theorem temporal_trend_verdict_witness :
    6 ≤ (temporal_trend_analysis exTrendArts).timeline.length ∧
    (temporal_trend_analysis exTrendArts).trend = "improving" ∧
    (temporal_trend_analysis exTrendArts).trend_strength = 1 / 2 ∧
    ((temporal_trend_analysis []).timeline.length < 6 ∧
      (temporal_trend_analysis []).trend = "insufficient_data") := by
  have hb : (temporal_trend_analysis exTrendArts).timeline
      = (sortedDays exTrendArts).map (mkDayEntry exTrendArts) := by
    by_cases h : 6 ≤ ((sortedDays exTrendArts).map (mkDayEntry exTrendArts)).length
    · unfold temporal_trend_analysis
      rw [if_pos h]
    · unfold temporal_trend_analysis
      rw [if_neg h]
  have htl : (temporal_trend_analysis exTrendArts).timeline =
      [{ date := 0, avg_sentiment := 0, article_count := 1, top_sectors := [] },
       { date := 1, avg_sentiment := 0, article_count := 1, top_sectors := [] },
       { date := 2, avg_sentiment := 0, article_count := 1, top_sectors := [] },
       { date := 3, avg_sentiment := 1 / 2, article_count := 1, top_sectors := [] },
       { date := 4, avg_sentiment := 1 / 2, article_count := 1, top_sectors := [] },
       { date := 5, avg_sentiment := 1 / 2, article_count := 1, top_sectors := [] }] := by
    rw [hb]
    norm_num [sortedDays, datedArticles, exTrendArts, dayArt, effTimestamp,
      dedupF, sortStable, insertStable, mkDayEntry, listMean, getSent, tally,
      sortDescBySnd, round3, roundTo, round_eq, List.filterMap_cons]
  have h6 : 6 ≤ (temporal_trend_analysis exTrendArts).timeline.length := by
    rw [htl]
    norm_num
  have hzero : (temporal_trend_analysis []).timeline.length < 6 := by
    norm_num [temporal_trend_analysis, sortedDays, datedArticles, dedupF,
      sortStable, mkDayEntry]
  obtain ⟨-, -, hbig⟩ := temporal_trend_verdict exTrendArts
  obtain ⟨-, hsmall0, -⟩ := temporal_trend_verdict ([] : List Article)
  obtain ⟨himp, -, hstr⟩ := hbig h6
  refine ⟨h6, ?_, ?_, hzero, (hsmall0 hzero).1⟩
  · apply himp.mpr
    rw [htl]
    norm_num [previousMean3, recentMean3, listMean]
  · rw [hstr, htl]
    norm_num [previousMean3, recentMean3, listMean, round3, roundTo, round_eq]
    rw [abs_of_nonneg (by norm_num : (0 : ℚ) ≤ 1 / 2)]
    norm_num

/-! ## C7: velocity engine -/

/-- C7 (amended): every sector in `sector_velocities` has at least two
distinct days of dated articles (a one-day sector never appears); its
velocity is the rounded difference between the most recent and the
second-most-recent day's mean scores; the list is sorted by descending
absolute velocity; and `fastest_improving`/`fastest_declining` are the
first 5 reported sectors with velocity strictly greater than 0 /
strictly less than 0 in that order. -/
theorem velocity_report_spec (arts : List Article) :
    (∀ r ∈ (velocity_analysis arts).sector_velocities,
      2 ≤ (sectorSortedDays arts r.sector).length ∧
      ∃ d1 d2 rest, (sectorSortedDays arts r.sector).reverse = d1 :: d2 :: rest ∧
        r.current_sentiment = round3 (listMean (sectorDayScores arts r.sector d1)) ∧
        r.previous_sentiment = round3 (listMean (sectorDayScores arts r.sector d2)) ∧
        r.velocity = round3 (listMean (sectorDayScores arts r.sector d1)
          - listMean (sectorDayScores arts r.sector d2))) ∧
    (velocity_analysis arts).sector_velocities.Pairwise
      (fun x y => |y.velocity| ≤ |x.velocity|) ∧
    (velocity_analysis arts).fastest_improving
      = ((velocity_analysis arts).sector_velocities.filter
          (fun v => decide (0 < v.velocity))).take 5 ∧
    (velocity_analysis arts).fastest_declining
      = ((velocity_analysis arts).sector_velocities.filter
          (fun v => decide (v.velocity < 0))).take 5 ∧
    (∀ s : String, (sectorSortedDays arts s).length = 1 →
      ∀ r ∈ (velocity_analysis arts).sector_velocities, r.sector ≠ s) := by
  have hmem : ∀ r ∈ (velocity_analysis arts).sector_velocities,
      2 ≤ (sectorSortedDays arts r.sector).length ∧
      ∃ d1 d2 rest, (sectorSortedDays arts r.sector).reverse = d1 :: d2 :: rest ∧
        r.current_sentiment = round3 (listMean (sectorDayScores arts r.sector d1)) ∧
        r.previous_sentiment = round3 (listMean (sectorDayScores arts r.sector d2)) ∧
        r.velocity = round3 (listMean (sectorDayScores arts r.sector d1)
          - listMean (sectorDayScores arts r.sector d2)) := by
    intro r hr
    have hr' : r ∈ (dedupF ((datedArticles arts).flatMap
        (fun p => p.2.sectors))).filterMap (mkVelocityRec arts) := by
      simpa [velocity_analysis, mem_sortStable] using hr
    obtain ⟨s, -, hs⟩ := List.mem_filterMap.mp hr'
    unfold mkVelocityRec at hs
    cases heq : (sectorSortedDays arts s).reverse with
    | nil =>
      rw [heq] at hs
      simp at hs
    | cons d1 tl =>
      cases tl with
      | nil =>
        rw [heq] at hs
        simp at hs
      | cons d2 rest =>
        rw [heq] at hs
        simp only [Option.some.injEq] at hs
        subst hs
        refine ⟨?_, d1, d2, rest, heq, rfl, rfl, rfl⟩
        have : (sectorSortedDays arts s).length = rest.length + 2 := by
          rw [← List.length_reverse, heq]
          simp
        simp only [this]
        omega
  refine ⟨hmem, ?_, rfl, rfl, ?_⟩
  · exact pairwise_sortStable_ge (fun r : VelocityRec => |r.velocity|)
      ((dedupF ((datedArticles arts).flatMap
        (fun p => p.2.sectors))).filterMap (mkVelocityRec arts))
  · intro s hs1 r hr hsec
    have h2 := (hmem r hr).1
    rw [hsec, hs1] at h2
    omega

/-- C7 counterexample: a sector with day-over-day change `0.03` appears in
`fastest_improving`, refuting the claim that the improving sub-list holds
exactly the sectors with velocity strictly greater than `0.05`. -/
theorem velocity_improving_threshold_counterexample :
    (velocity_analysis exVelArts).fastest_improving.map VelocityRec.velocity
      = [3 / 100] ∧
    ¬ ((1 / 20 : ℚ) < 3 / 100) := by
  constructor
  · norm_num [velocity_analysis, datedArticles, exVelArts, effTimestamp,
      dedupF, sortStable, insertStable, mkVelocityRec, sectorSortedDays,
      sectorDayScores, listMean, getSent, round3, roundTo, round_eq,
      List.filterMap_cons, List.replicate]
  · norm_num

/-- Witness for C7 at the two-day one-sector input. -/
theorem velocity_report_spec_witness :
    exVelRec ∈ (velocity_analysis exVelArts).sector_velocities ∧
    2 ≤ (sectorSortedDays exVelArts "s").length := by
  have hv : (velocity_analysis exVelArts).sector_velocities = [exVelRec] := by
    norm_num [velocity_analysis, datedArticles, exVelArts, exVelRec, effTimestamp,
      dedupF, sortStable, insertStable, mkVelocityRec, sectorSortedDays,
      sectorDayScores, listMean, getSent, round3, roundTo, round_eq,
      List.filterMap_cons, List.replicate]
  have hm : exVelRec ∈ (velocity_analysis exVelArts).sector_velocities := by
    rw [hv]
    exact List.mem_singleton.mpr rfl
  exact ⟨hm, ((velocity_report_spec exVelArts).1 _ hm).1⟩

/-! ## C8: insufficient-data conditions -/

/-- C8: each insufficient-data condition yields a well-formed empty-result
artifact: fewer than 10 scored articles empties the anomaly report with an
explanatory message (whatever the score values); fewer than 3 distinct
sectors empties the cluster report with a message; an article set in which
no article lists 2 or more distinct sectors yields a correlation report
with `total_correlations = 0` and `top_correlations = []`. -/
theorem insufficient_data_artifacts :
    (∀ arts : List Article, (scoredArticles arts).length < 10 →
      (detect_anomalies arts).anomalies = [] ∧
      (detect_anomalies arts).message
        = some "Insufficient data for anomaly detection") ∧
    (∀ (cl : List (List ℚ) → ℕ → List ℕ) (arts : List Article),
      (sectorKeys arts).length < 3 →
      (sector_clustering cl arts).clusters = [] ∧
      (sector_clustering cl arts).message
        = some "Insufficient sectors for clustering") ∧
    (∀ arts : List Article, (∀ a ∈ arts, (corrSectors a).length < 2) →
      (generate_super_sector_correlations arts).total_correlations = 0 ∧
      (generate_super_sector_correlations arts).top_correlations = []) := by
  refine ⟨?_, ?_, ?_⟩
  · intro arts h
    simp [detect_anomalies, h]
  · intro cl arts h
    simp [sector_clustering, h]
  · intro arts h
    have hmp : multiPairs arts = [] := by
      apply List.flatMap_eq_nil_iff.mpr
      intro a ha
      rw [articlePairs, if_neg]
      have := h a ha
      omega
    rcases eq_or_ne arts [] with rfl | hne
    · simp [generate_super_sector_correlations]
    · simp [generate_super_sector_correlations, hne, hmp, dedupF]

/-- Witness for C8: a single scored single-sector article triggers all
three insufficient-data paths at once. -/
theorem insufficient_data_artifacts_witness :
    (scoredArticles exSmallArts).length < 10 ∧
    (sectorKeys exSmallArts).length < 3 ∧
    (∀ a ∈ exSmallArts, (corrSectors a).length < 2) ∧
    (detect_anomalies exSmallArts).anomalies = [] ∧
    (sector_clustering (fun _ _ => []) exSmallArts).clusters = [] ∧
    (generate_super_sector_correlations exSmallArts).total_correlations = 0 := by
  have hlow : strToLower "finance" = "finance" := by decide
  have h1 : (scoredArticles exSmallArts).length < 10 := by decide
  have h2 : (sectorKeys exSmallArts).length < 3 := by
    norm_num [sectorKeys, dedupF, exSmallArts]
  have h3 : ∀ a ∈ exSmallArts, (corrSectors a).length < 2 := by
    intro a ha
    simp only [exSmallArts, List.mem_singleton] at ha
    subst ha
    norm_num [corrSectors, sortStable, insertStable, hlow, List.dedup_cons_of_not_mem]
  obtain ⟨p1, p2, p3⟩ := insufficient_data_artifacts
  exact ⟨h1, h2, h3, (p1 exSmallArts h1).1,
    (p2 (fun _ _ => []) exSmallArts h2).1, (p3 exSmallArts h3).1⟩

/-! ## C6: sector indicators -/

/-- C6 (amended): `build_sector_indicators` groups each article into every
sector bucket it lists (one contribution per listed tag occurrence),
computes each sector's average sentiment over those contributions (absent
scores as 0), labels it `"positive"` exactly when the average strictly
exceeds 0.1, `"negative"` exactly when strictly below -0.1 and `"neutral"`
otherwise; the per-sector top keywords and organizations are the validated
parse of the LLM's response to the sector's prompt, in the LLM's order —
they are not cleaned through the Noise Filter's `clean_topic` nor ranked
by frequency. -/
theorem sector_indicators_spec (oracle : String → String)
    (arts : List Article) :
    ((build_sector_indicators oracle true arts).map Prod.fst = sectorKeys arts) ∧
    ∀ p ∈ build_sector_indicators oracle true arts,
      p.2.article_count = sectorCount arts p.1 ∧
      p.2.avg_sentiment = round3 (if sectorScores arts p.1 = [] then 0
        else listMean (sectorScores arts p.1)) ∧
      (p.2.sentiment_label = "positive"
        ↔ (1 / 10 : ℚ) < (if sectorScores arts p.1 = [] then 0
            else listMean (sectorScores arts p.1))) ∧
      (p.2.sentiment_label = "negative"
        ↔ (if sectorScores arts p.1 = [] then 0
            else listMean (sectorScores arts p.1)) < -(1 / 10 : ℚ)) ∧
      (p.2.sentiment_label = "neutral"
        ↔ (¬ (1 / 10 : ℚ) < (if sectorScores arts p.1 = [] then 0
              else listMean (sectorScores arts p.1)) ∧
            ¬ (if sectorScores arts p.1 = [] then 0
              else listMean (sectorScores arts p.1)) < -(1 / 10 : ℚ))) ∧
      (0 < sectorCount arts p.1 →
        p.2.top_keywords = llm_extract_keywords oracle p.1
          (extract_sector_text p.1 arts 500 15) 10 ∧
        p.2.top_organizations = llm_extract_orgs oracle p.1
          (extract_sector_text p.1 arts 500 15) 10) := by
  have key : ∀ q : ℚ,
      ((if (1 / 10 : ℚ) < q then "positive"
        else if q < -(1 / 10 : ℚ) then "negative" else "neutral") = "positive"
          ↔ (1 / 10 : ℚ) < q) ∧
      ((if (1 / 10 : ℚ) < q then "positive"
        else if q < -(1 / 10 : ℚ) then "negative" else "neutral") = "negative"
          ↔ q < -(1 / 10 : ℚ)) ∧
      ((if (1 / 10 : ℚ) < q then "positive"
        else if q < -(1 / 10 : ℚ) then "negative" else "neutral") = "neutral"
          ↔ ¬ (1 / 10 : ℚ) < q ∧ ¬ q < -(1 / 10 : ℚ)) := by
    intro q
    by_cases h1 : (1 / 10 : ℚ) < q
    · rw [if_pos h1]
      exact ⟨⟨fun _ => h1, fun _ => rfl⟩,
        ⟨fun h => absurd h (by decide), fun h => absurd h1 (by linarith)⟩,
        ⟨fun h => absurd h (by decide), fun h => absurd h1 h.1⟩⟩
    · rw [if_neg h1]
      by_cases h2 : q < -(1 / 10 : ℚ)
      · rw [if_pos h2]
        exact ⟨⟨fun h => absurd h (by decide), fun h => absurd h h1⟩,
          ⟨fun _ => h2, fun _ => rfl⟩,
          ⟨fun h => absurd h (by decide), fun h => absurd h2 h.2⟩⟩
      · rw [if_neg h2]
        exact ⟨⟨fun h => absurd h (by decide), fun h => absurd h h1⟩,
          ⟨fun h => absurd h (by decide), fun h => absurd h h2⟩,
          ⟨fun _ => ⟨h1, h2⟩, fun _ => rfl⟩⟩
  constructor
  · simp [build_sector_indicators, List.map_map, Function.comp_def]
  · intro p hp
    simp only [build_sector_indicators, List.mem_map] at hp
    obtain ⟨s, -, rfl⟩ := hp
    refine ⟨rfl, rfl, (key _).1, (key _).2.1, (key _).2.2, ?_⟩
    intro hc
    rw [if_pos (show True ∧ 0 < sectorCount arts s from ⟨trivial, hc⟩)]
    exact ⟨rfl, rfl⟩

set_option maxHeartbeats 1000000 in
/-- Evaluation of the sector builder on `exSectorArts` under `exOracle`
(shared by the C6 counterexample and witness). -/
theorem sectorIndicators_exEval :
    build_sector_indicators exOracle true exSectorArts
      = [("finance", exSectorInd)] := by
  have hparse : (parseCsvItems "ft.lk, alpha beta").map stripNumbering
      = ["ft.lk", "alpha beta"] := by
    simp [parseCsvItems, strReplace, replaceChars, strSplitOn,
      splitOnChars, stripNumbering, strIntercalate, strTrim,
      List.isPrefixOf, List.dropWhile_cons, String.ext_iff,
      List.intercalate, List.intersperse]
  have hkw : llm_extract_keywords exOracle "finance"
      "News.\n\n---\n\nNews.\n\n---\n\nNews." 10 = ["ft.lk", "alpha beta"] := by
    simp only [llm_extract_keywords, callOllama, exOracle]
    rw [show strTrim "ft.lk, alpha beta" = "ft.lk, alpha beta" from rfl, hparse]
    rfl
  have horg : llm_extract_orgs exOracle "finance"
      "News.\n\n---\n\nNews.\n\n---\n\nNews." 10 = ["alpha beta"] := by
    simp only [llm_extract_orgs, callOllama, exOracle]
    rw [show strTrim "ft.lk, alpha beta" = "ft.lk, alpha beta" from rfl, hparse]
    rfl
  have hkeys : sectorKeys exSectorArts = ["finance"] := by
    simp [sectorKeys, dedupF, exSectorArts, List.replicate]
  have hcount : sectorCount exSectorArts "finance" = 3 := by
    simp [sectorCount, exSectorArts, List.replicate]
  have hscores : sectorScores exSectorArts "finance" = [1 / 2, 1 / 2, 1 / 2] := rfl
  have hcorpus : extract_sector_text "finance" exSectorArts 500 15
      = "News.\n\n---\n\nNews.\n\n---\n\nNews." := rfl
  simp only [build_sector_indicators, hkeys, List.map_cons, List.map_nil,
    hcount, hscores, hcorpus, hkw, horg]
  simp only [if_neg (show ¬ (([1 / 2, 1 / 2, 1 / 2] : List ℚ) = []) by simp)]
  norm_num [listMean, round3, roundTo, round_eq, exSectorInd]

set_option maxHeartbeats 1000000 in
/-- C6 counterexample: under a fixed LLM response the published
`top_keywords` of the `finance` sector start with `"ft.lk"`, which the
Noise Filter (`clean_topic`) rejects, and which occurs less often in the
sector's articles than the keyword listed after it — so the published
keywords are neither Noise-Filter-cleaned nor frequency-ranked. -/
theorem sector_keywords_counterexample :
    build_sector_indicators exOracle true exSectorArts
      = [("finance", exSectorInd)] ∧
    exSectorInd.top_keywords = ["ft.lk", "alpha beta"] ∧
    clean_topic "ft.lk" = none ∧
    claimKeywordFrequency exSectorArts "finance" "ft.lk"
      < claimKeywordFrequency exSectorArts "finance" "alpha beta" := by
  refine ⟨sectorIndicators_exEval, rfl, ?_, ?_⟩
  · simp [clean_topic, normWS, splitWords, splitChars, strIntercalate,
      strToLower, strTrim, NOISY_TOPICS, ENGLISH_STOPWORDS, GENERIC_BUZZWORDS,
      UI_ARTIFACTS, MIN_TOPIC_LENGTH, List.intercalate, List.intersperse,
      List.dropWhile_cons, String.ext_iff, String.length]
  · simp [claimKeywordFrequency, exSectorArts, List.replicate]

set_option maxHeartbeats 1000000 in
/-- Witness for C6 at the `exSectorArts`/`exOracle` input. -/
theorem sector_indicators_spec_witness :
    ("finance", exSectorInd) ∈ build_sector_indicators exOracle true exSectorArts ∧
    0 < sectorCount exSectorArts "finance" ∧
    exSectorInd.sentiment_label = "positive" := by
  have hmem : ("finance", exSectorInd)
      ∈ build_sector_indicators exOracle true exSectorArts := by
    rw [sectorIndicators_exEval]
    exact List.mem_singleton.mpr rfl
  have hc : 0 < sectorCount exSectorArts "finance" := by
    norm_num [sectorCount, exSectorArts, List.replicate]
  have h := (sector_indicators_spec exOracle exSectorArts).2 _ hmem
  refine ⟨hmem, hc, ?_⟩
  refine (h.2.2.1).mpr ?_
  have hx : sectorScores exSectorArts ("finance", exSectorInd).1 = [1 / 2, 1 / 2, 1 / 2] := by
    simp [sectorScores, exSectorArts, getSent, List.replicate]
  rw [hx, if_neg (show ¬ (([1 / 2, 1 / 2, 1 / 2] : List ℚ) = []) by simp)]
  norm_num [listMean]

/-! ## C9: aggregator determinism -/

theorem lookup_map_pair {β : Type} (f : String → β) (l : List String)
    (k : String) :
    (l.map (fun s => (s, f s))).lookup k = if k ∈ l then some (f k) else none := by
  induction l with
  | nil => simp
  | cons x xs ih =>
    simp only [List.map_cons, List.lookup]
    by_cases h : k = x
    · subst h
      simp
    · have hx : (k == x) = false := beq_eq_false_iff_ne.mpr h
      simp [hx, ih, h]

/-- C9 counterexample: two runs of `build_national_indicators` on the same
(empty) snapshot at different wall-clock instants produce different
artifacts — the embedded `timestamp` field changes, so the artifact is not
byte-identical across runs. -/
theorem aggregator_timestamp_counterexample :
    build_national_indicators [] "2025-01-01T00:00:00"
      ≠ build_national_indicators [] "2025-01-01T00:00:01" := by
  intro h
  have ht := congrArg NationalIndicators.timestamp h
  simp only [build_national_indicators] at ht
  exact absurd ht (by simp)

/-- C9 (amended): each Aggregator output is a deterministic function of the
snapshot together with its explicit external inputs.  All national fields
except the embedded wall-clock `timestamp` are independent of the clock;
the non-LLM sector fields (keys, article counts, average sentiment,
label) are independent of the LLM responses; risk/opportunity insights
depend on the snapshot alone; and the cluster report is determined by the
snapshot and the fixed-seed k-means function.  Byte-identical artifacts
across runs fail only through the timestamp (see the counterexample) and
the LLM-derived keyword/organization lists. -/
theorem aggregator_determinism (arts : List Article) (t1 t2 : String)
    (o1 o2 : String → String) (cl : List (List ℚ) → ℕ → List ℕ) :
    ((build_national_indicators arts t1).overall_sentiment
        = (build_national_indicators arts t2).overall_sentiment ∧
      (build_national_indicators arts t1).sentiment_distribution
        = (build_national_indicators arts t2).sentiment_distribution ∧
      (build_national_indicators arts t1).total_articles
        = (build_national_indicators arts t2).total_articles ∧
      (build_national_indicators arts t1).positive_articles
        = (build_national_indicators arts t2).positive_articles ∧
      (build_national_indicators arts t1).negative_articles
        = (build_national_indicators arts t2).negative_articles ∧
      (build_national_indicators arts t1).neutral_articles
        = (build_national_indicators arts t2).neutral_articles ∧
      (build_national_indicators arts t1).top_sectors
        = (build_national_indicators arts t2).top_sectors ∧
      (build_national_indicators arts t1).top_organizations
        = (build_national_indicators arts t2).top_organizations ∧
      (build_national_indicators arts t1).top_locations
        = (build_national_indicators arts t2).top_locations ∧
      (build_national_indicators arts t1).top_topics
        = (build_national_indicators arts t2).top_topics) ∧
    ((build_sector_indicators o1 true arts).map Prod.fst
        = (build_sector_indicators o2 true arts).map Prod.fst ∧
      ∀ s : String,
        ((build_sector_indicators o1 true arts).lookup s).map SectorInd.article_count
          = ((build_sector_indicators o2 true arts).lookup s).map SectorInd.article_count ∧
        ((build_sector_indicators o1 true arts).lookup s).map SectorInd.avg_sentiment
          = ((build_sector_indicators o2 true arts).lookup s).map SectorInd.avg_sentiment ∧
        ((build_sector_indicators o1 true arts).lookup s).map SectorInd.sentiment_label
          = ((build_sector_indicators o2 true arts).lookup s).map SectorInd.sentiment_label) ∧
    detect_risks_opportunities arts = detect_risks_opportunities arts ∧
    sector_clustering cl arts = sector_clustering cl arts := by
  refine ⟨⟨rfl, rfl, rfl, rfl, rfl, rfl, rfl, rfl, rfl, rfl⟩, ⟨?_, ?_⟩, rfl, rfl⟩
  · simp [build_sector_indicators, List.map_map, Function.comp_def]
  · intro s
    simp only [build_sector_indicators, lookup_map_pair]
    by_cases h : s ∈ sectorKeys arts <;> simp [h]

/-! ## C2: correlation gates, scores and ordering -/

theorem pairsOf_mem {α : Type} {q : α × α} :
    ∀ {l : List α}, q ∈ pairsOf l → q.1 ∈ l ∧ q.2 ∈ l := by
  intro l
  induction l with
  | nil => simp [pairsOf]
  | cons x xs ih =>
    intro hq
    rcases List.mem_append.mp hq with h | h
    · obtain ⟨y, hy, rfl⟩ := List.mem_map.mp h
      exact ⟨List.mem_cons_self x xs, List.mem_cons_of_mem x hy⟩
    · obtain ⟨h1, h2⟩ := ih h
      exact ⟨List.mem_cons_of_mem x h1, List.mem_cons_of_mem x h2⟩

theorem pairsOf_nodup {α : Type} [DecidableEq α] :
    ∀ {l : List α}, l.Nodup → (pairsOf l).Nodup := by
  intro l
  induction l with
  | nil => simp [pairsOf]
  | cons x xs ih =>
    intro h
    rw [List.nodup_cons] at h
    obtain ⟨hx, hxs⟩ := h
    rw [pairsOf]
    refine List.Nodup.append ?_ (ih hxs) ?_
    · exact hxs.map (fun a b hab => (Prod.mk.injEq _ _ _ _).mp hab |>.2)
    · intro q hq1 hq2
      obtain ⟨y, -, rfl⟩ := List.mem_map.mp hq1
      exact hx ((pairsOf_mem hq2).1)

theorem corrSectors_nodup (a : Article) : (corrSectors a).Nodup :=
  ((sortStable_perm _ _).nodup_iff).mpr (List.nodup_dedup _)

theorem articlePairs_nodup (a : Article) : (articlePairs a).Nodup := by
  rw [articlePairs]
  split
  · exact pairsOf_nodup (corrSectors_nodup a)
  · exact List.nodup_nil

theorem count_le_one_of_nodup {α : Type} [BEq α] [LawfulBEq α] :
    ∀ {l : List α}, l.Nodup → ∀ a, l.count a ≤ 1 := by
  intro l
  induction l with
  | nil =>
    intro _ a
    simp
  | cons x xs ih =>
    intro h a
    rw [List.nodup_cons] at h
    rw [List.count_cons]
    by_cases hax : x = a
    · subst hax
      have h0 : xs.count x = 0 := List.count_eq_zero.mpr h.1
      simp [h0]
    · have hb : (x == a) = false := beq_eq_false_iff_ne.mpr hax
      rw [hb]
      have := ih h.2 a
      simp
      omega

theorem pairCount_le_length (arts : List Article) (p : String × String) :
    pairCount arts p ≤ arts.length := by
  induction arts with
  | nil => simp [pairCount, multiPairs]
  | cons a as ih =>
    have hone : (articlePairs a).count p ≤ 1 :=
      count_le_one_of_nodup (articlePairs_nodup a) p
    have : pairCount (a :: as) p = (articlePairs a).count p + pairCount as p := by
      simp [pairCount, multiPairs, List.count_append]
    rw [this]
    simp only [List.length_cons]
    omega

theorem foldr_max_le {l : List ℕ} {n : ℕ} (h : ∀ x ∈ l, x ≤ n) :
    l.foldr max 0 ≤ n := by
  induction l with
  | nil => simp
  | cons x xs ih =>
    simp only [List.foldr_cons]
    exact Nat.max_le.mpr ⟨h x (List.mem_cons_self x xs),
      ih (fun y hy => h y (List.mem_cons_of_mem x hy))⟩

theorem maxPairCount_le_length (arts : List Article) :
    maxPairCount arts ≤ arts.length := by
  apply foldr_max_le
  intro x hx
  obtain ⟨p, -, rfl⟩ := List.mem_map.mp hx
  exact pairCount_le_length arts p

/-- The correlation loop's gates coincide with the claim's three gates
(`count ≥ max(2, 1% of the largest pair count)` read over `ℚ`): the
global-fraction gate subsumes the floor-versus-exact 1% distinction. -/
theorem corrGate_iff (arts : List Article) (p : String × String) :
    corrGate arts p = true ↔
      max 2 ((maxPairCount arts : ℚ) / 100) ≤ (pairCount arts p : ℚ) ∧
      (1 / 20 : ℚ) ≤ jaccardOf arts p ∧
      (1 / 50 : ℚ) ≤ (pairCount arts p : ℚ) / (arts.length : ℚ) := by
  unfold corrGate
  simp only [Bool.and_eq_true, decide_eq_true_eq]
  constructor
  · rintro ⟨⟨h1, h2⟩, h3⟩
    have hc2 : 2 ≤ pairCount arts p :=
      le_trans (Nat.le_max_left _ _) h1
    have hL : arts.length ≠ 0 := by
      intro h0
      rw [h0] at h3
      norm_num at h3
    have hLpos : (0 : ℚ) < (arts.length : ℚ) := by
      exact_mod_cast Nat.pos_of_ne_zero hL
    have hcL : (arts.length : ℚ) / 50 ≤ (pairCount arts p : ℚ) := by
      rw [div_le_iff (by norm_num : (0:ℚ) < 50)]
      rw [le_div_iff hLpos] at h3
      linarith
    have hm : (maxPairCount arts : ℚ) ≤ (arts.length : ℚ) :=
      Nat.cast_le.mpr (maxPairCount_le_length arts)
    refine ⟨max_le (by exact_mod_cast hc2) (by linarith), h2, h3⟩
  · rintro ⟨h1, h2, h3⟩
    have hc2 : 2 ≤ pairCount arts p := by
      exact_mod_cast le_trans (le_max_left _ _) h1
    have hfloor : maxPairCount arts / 100 ≤ pairCount arts p := by
      have hq : ((maxPairCount arts / 100 : ℕ) : ℚ)
          ≤ (maxPairCount arts : ℚ) / 100 := Nat.cast_div_le
      exact_mod_cast le_trans hq (le_trans (le_max_right _ _) h1)
    refine ⟨⟨?_, h2⟩, h3⟩
    unfold dynamicMinCoMentions
    split <;> omega

/-- C2: a sector pair appears in the correlation report only if all three
gates hold — co-occurrence count at least `max(2, 1% of the largest pair's
count)`, Jaccard similarity at least 0.05, global fraction at least
0.02 — every published pair carries the composite score
`0.5·(count/max) + 0.3·jaccard + 0.2·fraction` (as rounded into the
artifact) and the claimed strength label; `top_correlations` is the
20-prefix of the qualifying pairs sorted by descending score and
`total_correlations` counts all qualifying pairs. -/
theorem correlation_report_spec (arts : List Article) :
    (∀ c ∈ (generate_super_sector_correlations arts).top_correlations,
      max 2 ((maxPairCount arts : ℚ) / 100)
          ≤ (pairCount arts (c.sector1, c.sector2) : ℚ) ∧
      (1 / 20 : ℚ) ≤ jaccardOf arts (c.sector1, c.sector2) ∧
      (1 / 50 : ℚ) ≤ (pairCount arts (c.sector1, c.sector2) : ℚ) / (arts.length : ℚ) ∧
      c.co_occurrence_count = pairCount arts (c.sector1, c.sector2) ∧
      c.score = round3 ((1 / 2 : ℚ)
          * ((pairCount arts (c.sector1, c.sector2) : ℚ) / (maxPairCount arts : ℚ))
        + (3 / 10 : ℚ) * jaccardOf arts (c.sector1, c.sector2)
        + (1 / 5 : ℚ) * ((pairCount arts (c.sector1, c.sector2) : ℚ) / (arts.length : ℚ))) ∧
      c.correlation_strength =
        (if 8 ≤ pairCount arts (c.sector1, c.sector2)
            ∧ (3 / 20 : ℚ) ≤ jaccardOf arts (c.sector1, c.sector2) then "very_strong"
        else if 4 ≤ pairCount arts (c.sector1, c.sector2)
            ∧ (1 / 10 : ℚ) ≤ jaccardOf arts (c.sector1, c.sector2) then "strong"
        else "moderate")) ∧
    (generate_super_sector_correlations arts).total_correlations
      = ((dedupF (multiPairs arts)).filter (fun p =>
          decide (max 2 ((maxPairCount arts : ℚ) / 100) ≤ (pairCount arts p : ℚ))
            && decide ((1 / 20 : ℚ) ≤ jaccardOf arts p)
            && decide ((1 / 50 : ℚ) ≤ (pairCount arts p : ℚ) / (arts.length : ℚ)))).length ∧
    ∃ l : List CorrRec,
      List.Perm l (((dedupF (multiPairs arts)).filter (fun p =>
          decide (max 2 ((maxPairCount arts : ℚ) / 100) ≤ (pairCount arts p : ℚ))
            && decide ((1 / 20 : ℚ) ≤ jaccardOf arts p)
            && decide ((1 / 50 : ℚ) ≤ (pairCount arts p : ℚ) / (arts.length : ℚ)))).map
          (mkCorrRec arts)) ∧
      l.Pairwise (fun x y => y.score ≤ x.score) ∧
      (generate_super_sector_correlations arts).top_correlations = l.take 20 := by
  have hfilter : (dedupF (multiPairs arts)).filter (corrGate arts)
      = (dedupF (multiPairs arts)).filter (fun p =>
          decide (max 2 ((maxPairCount arts : ℚ) / 100) ≤ (pairCount arts p : ℚ))
            && decide ((1 / 20 : ℚ) ≤ jaccardOf arts p)
            && decide ((1 / 50 : ℚ) ≤ (pairCount arts p : ℚ) / (arts.length : ℚ))) := by
    apply List.filter_congr
    intro p _
    rcases hbool : corrGate arts p with hf | ht
    · symm
      rw [Bool.eq_false_iff]
      intro hc
      rw [Bool.and_eq_true, Bool.and_eq_true, decide_eq_true_eq,
        decide_eq_true_eq, decide_eq_true_eq] at hc
      have : corrGate arts p = true := (corrGate_iff arts p).mpr
        ⟨hc.1.1, hc.1.2, hc.2⟩
      rw [hbool] at this
      exact Bool.false_ne_true this
    · symm
      have hp := (corrGate_iff arts p).mp hbool
      rw [Bool.and_eq_true, Bool.and_eq_true]
      exact ⟨⟨decide_eq_true hp.1, decide_eq_true hp.2.1⟩, decide_eq_true hp.2.2⟩
  by_cases ha : arts = []
  · subst ha
    refine ⟨?_, ?_, [], ?_, ?_, ?_⟩ <;>
      simp [generate_super_sector_correlations, multiPairs, dedupF]
  · by_cases hk : dedupF (multiPairs arts) = []
    · have hrep : generate_super_sector_correlations arts =
          { top_correlations := [], total_correlations := 0 } := by
        unfold generate_super_sector_correlations
        rw [if_neg ha, if_pos hk]
      refine ⟨?_, ?_, [], ?_, ?_, ?_⟩ <;>
        simp [hrep, hk]
    · have hrep : generate_super_sector_correlations arts =
          { top_correlations := (sortStable (fun x y => decide (y.score ≤ x.score))
              (((dedupF (multiPairs arts)).filter (corrGate arts)).map
                (mkCorrRec arts))).take 20
            total_correlations := (sortStable (fun x y => decide (y.score ≤ x.score))
              (((dedupF (multiPairs arts)).filter (corrGate arts)).map
                (mkCorrRec arts))).length } := by
        unfold generate_super_sector_correlations
        rw [if_neg ha, if_neg hk]
      refine ⟨?_, ?_, ?_⟩
      · intro c hc
        rw [hrep] at hc
        have hc' : c ∈ sortStable (fun x y => decide (y.score ≤ x.score))
            (((dedupF (multiPairs arts)).filter (corrGate arts)).map
              (mkCorrRec arts)) := (List.take_subset _ _) hc
        rw [mem_sortStable] at hc'
        obtain ⟨p, hpmem, rfl⟩ := List.mem_map.mp hc'
        have hgate := (corrGate_iff arts p).mp (List.mem_filter.mp hpmem).2
        refine ⟨hgate.1, hgate.2.1, hgate.2.2, ?_, ?_, ?_⟩ <;>
          simp [mkCorrRec, Prod.mk.eta]
      · rw [hrep]
        simp [length_sortStable, hfilter]
      · refine ⟨sortStable (fun x y => decide (y.score ≤ x.score))
            (((dedupF (multiPairs arts)).filter (corrGate arts)).map
              (mkCorrRec arts)), ?_, ?_, ?_⟩
        · rw [hfilter] at *
          exact sortStable_perm _ _
        · exact pairwise_sortStable_ge (fun r : CorrRec => r.score) _
        · rw [hrep]

/-- Witness for C2 at two articles sharing the sector pair
("alpha", "beta"): the pair passes every gate and is published. -/
theorem correlation_report_spec_witness :
    exCorrRec ∈ (generate_super_sector_correlations exCorrArts).top_correlations ∧
    (1 / 20 : ℚ) ≤ jaccardOf exCorrArts (exCorrRec.sector1, exCorrRec.sector2) := by
  have hle : (['a','l','p','h','a'] : List Char) ≤ ['b','e','t','a'] := by decide
  have hmp : multiPairs exCorrArts = [("alpha", "beta"), ("alpha", "beta")] := by
    simp [multiPairs, exCorrArts, articlePairs, corrSectors, strToLower,
      sortStable, insertStable, pairsOf, List.dedup_cons_of_not_mem,
      List.dedup_cons_of_mem, List.dedup_nil, hle]
  have hkeys : dedupF (multiPairs exCorrArts) = [("alpha", "beta")] := by
    simp [hmp, dedupF]
  have hcount : pairCount exCorrArts ("alpha", "beta") = 2 := by
    simp [pairCount, hmp]
  have hmax : maxPairCount exCorrArts = 2 := by
    simp [maxPairCount, hkeys, hcount]
  have hart1 : sectorArtCount exCorrArts "alpha" = 2 := by
    simp [sectorArtCount, exCorrArts, isMultiSector, corrSectors, strToLower,
      sortStable, insertStable, List.dedup_cons_of_not_mem,
      List.dedup_cons_of_mem, List.dedup_nil, List.filter_cons, hle]
  have hart2 : sectorArtCount exCorrArts "beta" = 2 := by
    simp [sectorArtCount, exCorrArts, isMultiSector, corrSectors, strToLower,
      sortStable, insertStable, List.dedup_cons_of_not_mem,
      List.dedup_cons_of_mem, List.dedup_nil, List.filter_cons, hle]
  have hunion : unionCount exCorrArts "alpha" "beta" = 2 := by
    simp [unionCount, exCorrArts, isMultiSector, corrSectors, strToLower,
      sortStable, insertStable, List.dedup_cons_of_not_mem,
      List.dedup_cons_of_mem, List.dedup_nil, List.filter_cons, hle]
  have hjac : jaccardOf exCorrArts ("alpha", "beta") = 1 := by
    rw [jaccardOf]
    simp only [hunion, hcount]
    norm_num
  have hsents : pairSents exCorrArts ("alpha", "beta") = [1 / 5, 1 / 5] := by
    simp [pairSents, exCorrArts, articlePairs, corrSectors, strToLower,
      sortStable, insertStable, pairsOf, getSent, List.dedup_cons_of_not_mem,
      List.dedup_cons_of_mem, List.dedup_nil, hle]
  have hlen : exCorrArts.length = 2 := by simp [exCorrArts]
  have hgate : corrGate exCorrArts ("alpha", "beta") = true := by
    rw [corrGate, dynamicMinCoMentions]
    simp only [hcount, hmax, hjac, hlen]
    norm_num
  have hmk : mkCorrRec exCorrArts ("alpha", "beta") = exCorrRec := by
    rw [mkCorrRec]
    simp only [hcount, hjac, hart1, hart2, hsents, hmax, hlen]
    rw [if_neg (show ¬(([1 / 5, 1 / 5] : List ℚ) = []) by simp)]
    rw [show listMean [1 / 5, 1 / 5] = 1 / 5 by norm_num [listMean]]
    norm_num [exCorrRec, round3, roundTo, round_eq]
  have hrep : generate_super_sector_correlations exCorrArts =
      { top_correlations := [exCorrRec], total_correlations := 1 } := by
    unfold generate_super_sector_correlations
    rw [if_neg (show ¬(exCorrArts = []) by simp [exCorrArts]),
      if_neg (show ¬(dedupF (multiPairs exCorrArts) = []) by rw [hkeys]; simp),
      hkeys]
    simp [List.filter_cons, hgate, hmk, sortStable, insertStable]
  have hm : exCorrRec ∈ (generate_super_sector_correlations exCorrArts).top_correlations := by
    rw [hrep]
    exact List.mem_singleton.mpr rfl
  have h := (correlation_report_spec exCorrArts).1 exCorrRec hm
  exact ⟨hm, h.2.1⟩

end Serendiv
